import Mathlib

/-!
Verification of the Unified Medical History Ledger & Clinical Trend Engine
(backend/patientHistory of the Resecure-medtech repository).

The Python source is shallowly embedded as executable Lean functions:

* `ClinicalTrend.add_data_point` / `ClinicalTrend.analyze_trend`
  (backend/patientHistory/models.py, lines 516-580) become `addDataPoint`
  and `trendDirectionOf` below.  Stored values are Python strings; the
  model classifies each stored string by how `float()` treats it
  (`PyValue`): empty strings are falsy and get filtered, non-numeric
  strings raise `ValueError`, numeric strings parse to a rational.  The
  Python `float` arithmetic of `analyze_trend` is modelled over `ℚ`; on
  the magnitudes the code handles (decimal lab values, percentages with
  comparisons against 5/10/100) rational arithmetic agrees with the IEEE
  computation.  The `except (ValueError, TypeError, ZeroDivisionError)`
  handler is modelled by the explicit parse-failure and
  zero-first-half-mean branches producing "unknown".
* `MedicalHistorySummary.refresh_summary` (models.py, lines 314-373)
  becomes `refreshSummary`.  `int((filled_fields / 6) * 100)` truncates
  toward zero; for `filled_fields ∈ [0,6]` the IEEE intermediate never
  reaches the next integer, so the result is exactly
  `Nat` floor division `filled_fields * 100 / 6`.
* The ledger views (backend/patientHistory/views.py) become operations on
  a `LedgerState` (records, append-only timeline events, workspaces and a
  Django-style autoincrement id).  Dates are modelled as day ordinals
  (`Nat`); display strings, `category_data` payloads, tags and the
  timestamp columns are not inspected by any claim and are omitted from
  the record embedding.  A Django 404 (`DoesNotExist`), a DRF 400 and a
  403 are the three error outcomes.
-/

namespace PatientHistory

/-- A Python string stored as a trend value, classified by how `float()`
treats it: `empty` is the falsy empty string (filtered out by
`if point.get('value')`), `num q` is a numeric string parsing to `q`,
`str s` is a non-empty non-numeric string (on which `float()` raises
`ValueError`). -/
inductive PyValue where
  | empty : PyValue
  | num : ℚ → PyValue
  | str : String → PyValue
deriving DecidableEq, Repr

/-- One element of `ClinicalTrend.data_points`:
a `{date, value, is_abnormal, source}` JSON object.  The date is the ISO
string produced by `date.isoformat()`; ISO-8601 dates compare
lexicographically exactly as dates do. -/
structure TrendPoint where
  date : String
  value : PyValue
  isAbnormal : Bool
  source : String
deriving DecidableEq, Repr

/-- The `ClinicalTrend` columns read and written by `add_data_point` and
`analyze_trend` (models.py, lines 413-580). -/
structure ClinicalTrend where
  dataPoints : List TrendPoint
  trendDirection : String
  latestValue : PyValue
  latestValueDate : Option String
  isCurrentlyAbnormal : Bool
deriving DecidableEq, Repr

/-- Stable insertion of a point into a date-sorted list: the new point
goes after every point whose date is `≤` its own, mirroring the
stability of Python `list.sort(key=lambda x: x['date'])`. -/
def insertPoint (p : TrendPoint) : List TrendPoint → List TrendPoint
  | [] => [p]
  | q :: qs => if q.date ≤ p.date then q :: insertPoint p qs else p :: q :: qs

/-- `self.data_points.sort(key=lambda x: x['date'])`: a stable sort by
the ISO date string. -/
def sortPoints (ps : List TrendPoint) : List TrendPoint :=
  ps.foldl (fun acc p => insertPoint p acc) []

/-- `ClinicalTrend.add_data_point` (models.py, lines 516-536).  The new
point is appended and the list re-sorted only when no existing point has
the same date; in that branch `latest_value`, `latest_value_date` and
`is_currently_abnormal` are set from the new observation.  When the date
is already present the method does nothing (no overwrite, no save).  The
`date` argument is a Python `date` object (it has `isoformat`), so the
stored point date is its ISO string and `latest_value_date` is the date
itself. -/
def addDataPoint (t : ClinicalTrend) (date : String) (value : PyValue)
    (isAbnormal : Bool) (source : String) : ClinicalTrend :=
  let newPoint : TrendPoint := ⟨date, value, isAbnormal, source⟩
  if (t.dataPoints.map TrendPoint.date).contains date then t
  else
    { t with
      dataPoints := sortPoints (t.dataPoints ++ [newPoint])
      latestValue := value
      latestValueDate := some date
      isCurrentlyAbnormal := isAbnormal }

/-- `[float(point['value']) for point in self.data_points if point.get('value')]`:
empty values are filtered, a non-numeric value raises `ValueError`
(modelled as `none`), otherwise the parsed rationals in order. -/
def pyFloatList : List TrendPoint → Option (List ℚ)
  | [] => some []
  | p :: ps =>
    match p.value with
    | .empty => pyFloatList ps
    | .num q => (pyFloatList ps).map (fun vs => q :: vs)
    | .str _ => none

/-- `first_half_avg = sum(values[:len(values)//2]) / (len(values)//2)`. -/
def firstHalfAvg (values : List ℚ) : ℚ :=
  (values.take (values.length / 2)).sum / ((values.length / 2 : ℕ) : ℚ)

/-- `second_half_avg = sum(values[len(values)//2:]) / (len(values) - len(values)//2)`. -/
def secondHalfAvg (values : List ℚ) : ℚ :=
  (values.drop (values.length / 2)).sum / ((values.length - values.length / 2 : ℕ) : ℚ)

/-- `diff_percentage = ((second_half_avg - first_half_avg) / first_half_avg) * 100`. -/
def diffPercentageOf (values : List ℚ) : ℚ :=
  (secondHalfAvg values - firstHalfAvg values) / firstHalfAvg values * 100

/-- The threshold table of `analyze_trend` (models.py, lines 560-575):
the direction chosen from `diff_percentage` and the stored
`is_currently_abnormal` flag. -/
def directionFromDiff (diffPercentage : ℚ) (isCurrentlyAbnormal : Bool) : String :=
  if |diffPercentage| < 5 then "stable"
  else if diffPercentage > 10 then
    if isCurrentlyAbnormal then "worsening" else "improving"
  else if diffPercentage < -10 then
    if isCurrentlyAbnormal then "improving" else "worsening"
  else "fluctuating"

/-- The direction computed by `ClinicalTrend.analyze_trend`
(models.py, lines 538-580) from the data points and the stored
`is_currently_abnormal` flag.  The `firstHalfAvg values = 0` branch
models the `ZeroDivisionError` raised by the float division, caught
together with `ValueError`/`TypeError` and mapped to "unknown". -/
def trendDirectionOf (points : List TrendPoint) (isCurrentlyAbnormal : Bool) : String :=
  if points.length < 2 then "unknown"
  else
    match pyFloatList points with
    | none => "unknown"
    | some values =>
      if values.length < 2 then "unknown"
      else if firstHalfAvg values = 0 then "unknown"
      else directionFromDiff (diffPercentageOf values) isCurrentlyAbnormal

/-- `ClinicalTrend.analyze_trend`: stores the computed direction. -/
def analyzeTrend (t : ClinicalTrend) : ClinicalTrend :=
  { t with trendDirection := trendDirectionOf t.dataPoints t.isCurrentlyAbnormal }

/-! ### Ledger data model -/

/-- A `DoctorPatientWorkspace` row as the patientHistory views use it: its
id and the ids of its doctor and its patient (user ids; each profile is
identified with its user). -/
structure Workspace where
  id : Nat
  doctorId : Nat
  patientId : Nat
deriving DecidableEq, Repr

/-- The `MedicalHistoryEntry` columns the claims inspect (models.py,
lines 7-134).  `category_data`, tags, notes, the denormalized trend
columns and the timestamp columns are never read by a verified property
and are omitted.  Dates are day ordinals: Python compares `date` objects
by calendar order. -/
structure HistoryRecord where
  id : Nat
  workspaceId : Nat
  patientId : Nat
  category : String
  source : String
  title : String
  description : String
  status : String
  startDate : Option Nat
  endDate : Option Nat
  sourceReferenceId : String
  sourceReferenceType : String
  severity : Option String
  isChronic : Bool
  requiresMonitoring : Bool
  isCritical : Bool
  addedBy : Option Nat
  verifiedByDoctor : Bool
deriving DecidableEq, Repr

/-- A `MedicalHistoryTimeline` row (models.py, lines 178-220); the
free-text `event_description` and the `event_data` JSON are not inspected
by any claim and are omitted. -/
structure TimelineEvent where
  historyEntryId : Nat
  eventType : String
  performedBy : Option Nat
  performedByType : String
deriving DecidableEq, Repr

/-- The persistent state the patientHistory views mutate: the workspace
table, the `MedicalHistoryEntry` rows, the append-only
`MedicalHistoryTimeline` rows (list order is insertion order, so
`created_at` order), and the autoincrement primary key counter. -/
structure LedgerState where
  workspaces : List Workspace
  records : List HistoryRecord
  events : List TimelineEvent
  nextId : Nat
deriving DecidableEq, Repr

/-- `MedicalHistoryEntry.CATEGORY_CHOICES` keys. -/
def categoryChoices : List String :=
  ["condition", "medication", "allergy", "surgery", "visit", "lab_result"]

/-- `MedicalHistoryEntry.STATUS_CHOICES` keys. -/
def statusChoices : List String :=
  ["active", "resolved", "historical", "inactive"]

/-- `MedicalHistoryEntry.SEVERITY_CHOICES` keys. -/
def severityChoices : List String :=
  ["mild", "moderate", "severe", "critical"]

/-- The three error outcomes of a patientHistory view: Django
`DoesNotExist` mapped to 404, a DRF serializer/validation failure mapped
to 400, and the explicit 403 responses. -/
inductive ApiError where
  | notFound (msg : String)
  | badRequest (msg : String)
  | accessDenied
deriving DecidableEq, Repr

/-- Equality of endpoint results is decidable, so concrete runs can be
checked by evaluation. -/
instance {ε α : Type} [DecidableEq ε] [DecidableEq α] : DecidableEq (Except ε α) :=
  fun a b =>
  match a, b with
  | .ok x, .ok y =>
    if h : x = y then .isTrue (by rw [h]) else .isFalse (fun hc => h (Except.ok.inj hc))
  | .error x, .error y =>
    if h : x = y then .isTrue (by rw [h])
    else .isFalse (fun hc => h (Except.error.inj hc))
  | .ok _, .error _ => .isFalse (fun hc => Except.noConfusion hc)
  | .error _, .ok _ => .isFalse (fun hc => Except.noConfusion hc)

/-! ### Summary rollup (`MedicalHistorySummary.refresh_summary`) -/

/-- The counted `MedicalHistorySummary` columns recomputed by
`refresh_summary` (models.py, lines 314-373).  The top-N list columns and
`last_visit_date` are not inspected by any claim and are omitted. -/
structure HistorySummary where
  totalConditions : Nat
  activeConditions : Nat
  totalMedications : Nat
  currentMedications : Nat
  totalAllergies : Nat
  totalSurgeries : Nat
  totalVisits : Nat
  totalLabResults : Nat
  hasChronicConditions : Bool
  hasCriticalAllergies : Bool
  requiresMonitoring : Bool
  completenessScore : Nat
  unverifiedEntriesCount : Nat
  criticalAlertsCount : Nat
deriving DecidableEq, Repr

/-- `MedicalHistorySummary.refresh_summary` over the workspace's entry
set.  `completeness_score = int((filled_fields / expected_fields) * 100)`
with `expected_fields = 6`; the `int()` truncation of the float product
coincides with natural floor division `filled * 100 / 6` for every
`filled ∈ [0, 6]`. -/
def refreshSummary (entries : List HistoryRecord) : HistorySummary :=
  let totalConditions := (entries.filter (fun e => e.category = "condition")).length
  let totalMedications := (entries.filter (fun e => e.category = "medication")).length
  let totalAllergies := (entries.filter (fun e => e.category = "allergy")).length
  let totalSurgeries := (entries.filter (fun e => e.category = "surgery")).length
  let totalVisits := (entries.filter (fun e => e.category = "visit")).length
  let totalLabResults := (entries.filter (fun e => e.category = "lab_result")).length
  let filledFields : Nat :=
    (if totalConditions > 0 then 1 else 0) + (if totalMedications > 0 then 1 else 0) +
    (if totalAllergies > 0 then 1 else 0) + (if totalSurgeries > 0 then 1 else 0) +
    (if totalVisits > 0 then 1 else 0) + (if totalLabResults > 0 then 1 else 0)
  { totalConditions := totalConditions
    activeConditions :=
      (entries.filter (fun e => e.category = "condition" && e.status = "active")).length
    totalMedications := totalMedications
    currentMedications :=
      (entries.filter (fun e => e.category = "medication" && e.status = "active")).length
    totalAllergies := totalAllergies
    totalSurgeries := totalSurgeries
    totalVisits := totalVisits
    totalLabResults := totalLabResults
    hasChronicConditions := entries.any (fun e => e.isChronic && e.status = "active")
    hasCriticalAllergies := entries.any (fun e => e.category = "allergy" && e.isCritical)
    requiresMonitoring := entries.any (fun e => e.requiresMonitoring && e.status = "active")
    completenessScore := filledFields * 100 / 6
    unverifiedEntriesCount := (entries.filter (fun e => !e.verifiedByDoctor)).length
    criticalAlertsCount :=
      (entries.filter (fun e => e.isCritical && e.status = "active")).length }

/-- The entries of one workspace, as `self.workspace.medical_history_entries.all()`
selects them. -/
def workspaceEntries (s : LedgerState) (wsId : Nat) : List HistoryRecord :=
  s.records.filter (fun r => r.workspaceId = wsId)

/-! ### Ledger operations (backend/patientHistory/views.py) -/

/-- The request body accepted by `DoctorAddHistorySerializer`
(serializers.py, lines 95-133).  `status`/`severity` are `none` when the
field is absent (the serializer then applies its default / leaves null). -/
structure DoctorAddInput where
  workspaceId : Nat
  category : String
  title : String
  description : String
  status : Option String
  startDate : Option Nat
  endDate : Option Nat
  severity : Option String
  isChronic : Bool
  requiresMonitoring : Bool
  isCritical : Bool
deriving DecidableEq, Repr

/-- `end_date < start_date` check of `DoctorAddHistorySerializer.validate`:
only fires when both dates are supplied. -/
def dateRangeInvalid : Option Nat → Option Nat → Bool
  | some sd, some ed => ed < sd
  | _, _ => false

/-- A DRF `ChoiceField` with `required=False`: an absent value passes,
a supplied value must be one of the choices. -/
def invalidOptChoice (choices : List String) : Option String → Bool
  | none => false
  | some v => decide (v ∉ choices)

/-- The `MedicalHistoryEntry.objects.create(...)` call of
`doctor_add_history_entry` (views.py, lines 223-229). -/
def doctorEntryFor (id : Nat) (ws : Workspace) (userId : Nat) (inp : DoctorAddInput) :
    HistoryRecord :=
  { id := id, workspaceId := ws.id, patientId := ws.patientId
    category := inp.category, source := "DOCTOR", title := inp.title
    description := inp.description, status := inp.status.getD "active"
    startDate := inp.startDate, endDate := inp.endDate
    sourceReferenceId := "", sourceReferenceType := ""
    severity := inp.severity, isChronic := inp.isChronic
    requiresMonitoring := inp.requiresMonitoring, isCritical := inp.isCritical
    addedBy := some userId, verifiedByDoctor := false }

/-- `doctor_add_history_entry` (views.py, lines 201-264).  The serializer
validates the category/status/severity choices, the workspace id and the
date order; then the workspace is fetched filtered by the calling
doctor (404 on mismatch); on success one record and one `added` timeline
event are inserted.  DRF reports all field errors together in one 400;
the checks are sequentialized here, which preserves the success/failure
outcome. -/
def doctorAddHistory (s : LedgerState) (userId : Nat) (inp : DoctorAddInput) :
    Except ApiError LedgerState :=
  if inp.category ∉ categoryChoices then .error (.badRequest "invalid category")
  else if invalidOptChoice statusChoices inp.status then
    .error (.badRequest "invalid status")
  else if invalidOptChoice severityChoices inp.severity then
    .error (.badRequest "invalid severity")
  else if ¬ s.workspaces.any (fun w => w.id = inp.workspaceId) then
    .error (.badRequest "Invalid workspace ID")
  else if dateRangeInvalid inp.startDate inp.endDate then
    .error (.badRequest "End date cannot be before start date")
  else
    match s.workspaces.find? (fun w => w.id = inp.workspaceId && w.doctorId = userId) with
    | none => .error (.notFound "Workspace not found or access denied")
    | some ws =>
      .ok { s with records := s.records ++ [doctorEntryFor s.nextId ws userId inp]
                   events := s.events ++ [⟨s.nextId, "added", some userId, "doctor"⟩]
                   nextId := s.nextId + 1 }

/-- The request body read by `patient_add_history_entry` directly from
`request.data` (views.py, lines 732-787): no serializer is involved, so
`status` is any string (defaulted to "active" when absent) and severity
and the dates are stored unvalidated. -/
structure PatientAddInput where
  category : String
  title : String
  description : String
  status : Option String
  startDate : Option Nat
  endDate : Option Nat
  severity : Option String
  isChronic : Bool
  requiresMonitoring : Bool
  isCritical : Bool
deriving DecidableEq, Repr

/-- The `MedicalHistoryEntry.objects.create(...)` call of
`patient_add_history_entry` (views.py, lines 753-770): the submitted
dates and status go in unvalidated. -/
def patientEntryFor (id wsId userId : Nat) (inp : PatientAddInput) : HistoryRecord :=
  { id := id, workspaceId := wsId, patientId := userId
    category := inp.category, source := "MANUAL", title := inp.title
    description := inp.description, status := inp.status.getD "active"
    startDate := inp.startDate, endDate := inp.endDate
    sourceReferenceId := "", sourceReferenceType := ""
    severity := inp.severity, isChronic := inp.isChronic
    requiresMonitoring := inp.requiresMonitoring, isCritical := inp.isCritical
    addedBy := some userId, verifiedByDoctor := false }

/-- `patient_add_history_entry` (views.py, lines 732-787): first
workspace of the calling patient, presence check on category and title,
category choice check — and no date-order check; one record plus one
`added` event. -/
def patientAddHistory (s : LedgerState) (userId : Nat) (inp : PatientAddInput) :
    Except ApiError LedgerState :=
  match s.workspaces.find? (fun w => w.patientId = userId) with
  | none => .error (.badRequest "No workspace found. Connect with a doctor first.")
  | some ws =>
    if inp.category = "" || inp.title = "" then
      .error (.badRequest "Category and title required")
    else if inp.category ∉ categoryChoices then .error (.badRequest "Invalid category")
    else
      .ok { s with records := s.records ++ [patientEntryFor s.nextId ws.id userId inp]
                   events := s.events ++ [⟨s.nextId, "added", some userId, "patient"⟩]
                   nextId := s.nextId + 1 }

/-- One candidate of a `BulkHistoryImportSerializer` request: a dict
required to carry `category` and `title`; everything else read with
`.get(..., default)` in `doctor_bulk_import_history`. -/
structure BulkEntry where
  category : String
  title : String
  description : String
  status : Option String
  startDate : Option Nat
  endDate : Option Nat
  severity : Option String
  isChronic : Bool
  requiresMonitoring : Bool
  isCritical : Bool
deriving DecidableEq, Repr

/-- A `BulkHistoryImportSerializer` request (serializers.py, lines
136-166). -/
structure BulkImportRequest where
  workspaceId : Nat
  source : String
  sourceReferenceId : String
  sourceReferenceType : String
  entries : List BulkEntry
deriving DecidableEq, Repr

/-- The record built for one candidate inside
`doctor_bulk_import_history`'s loop (views.py, lines 591-610): status is
the candidate's status or "active" for every category; `is_critical` is
taken from the candidate (default false) for every category, allergies
included. -/
def bulkEntryRecord (id wsId patientId : Nat)
    (source refId refType : String) (e : BulkEntry) : HistoryRecord :=
  { id := id, workspaceId := wsId, patientId := patientId
    category := e.category, source := source, title := e.title
    description := e.description, status := e.status.getD "active"
    startDate := e.startDate, endDate := e.endDate
    sourceReferenceId := refId, sourceReferenceType := refType
    severity := e.severity, isChronic := e.isChronic
    requiresMonitoring := e.requiresMonitoring, isCritical := e.isCritical
    addedBy := none, verifiedByDoctor := false }

/-- The state change of one iteration of the bulk-import loop: insert the
candidate's record and one `added` timeline event with
`performed_by_type='system'`. -/
def bulkImportStep (userId wsId patientId : Nat) (source refId refType : String)
    (acc : LedgerState × List Nat) (e : BulkEntry) : LedgerState × List Nat :=
  let st := acc.1
  let entry := bulkEntryRecord st.nextId wsId patientId source refId refType e
  let ev : TimelineEvent := ⟨st.nextId, "added", some userId, "system"⟩
  ({ st with records := st.records ++ [entry], events := st.events ++ [ev]
             nextId := st.nextId + 1 },
   acc.2 ++ [st.nextId])

/-- `doctor_bulk_import_history` (views.py, lines 570-650): serializer
checks (workspace exists, source choice, at least one entry, each entry
has a valid category), the doctor-filtered workspace fetch, then one
record and one event per candidate.  No existing `(workspace, source,
source_reference_id)` record is consulted — the view performs no dedup.
Returns the new state with the created ids. -/
def doctorBulkImport (s : LedgerState) (userId : Nat) (req : BulkImportRequest) :
    Except ApiError (LedgerState × List Nat) :=
  if ¬ s.workspaces.any (fun w => w.id = req.workspaceId) then
    .error (.badRequest "Invalid workspace ID")
  else if req.source ∉ ["INTAKE", "OCR", "MANUAL"] then
    .error (.badRequest "invalid source")
  else if req.entries.length < 1 then .error (.badRequest "entries required")
  else if ¬ req.entries.all (fun e => e.category ∈ categoryChoices) then
    .error (.badRequest "invalid entry category")
  else
    match s.workspaces.find? (fun w => w.id = req.workspaceId && w.doctorId = userId) with
    | none => .error (.notFound "Workspace not found or access denied")
    | some ws =>
      .ok (req.entries.foldl
        (bulkImportStep userId ws.id ws.patientId req.source
          req.sourceReferenceId req.sourceReferenceType)
        (s, []))

/-- A `PATCH` body for `MedicalHistoryEntrySerializer(partial=True)`.
`read_only_fields` is only `id`/`recorded_date`/`created_at`/`updated_at`
(serializers.py, line 31), so `verified_by_doctor` is writable like the
clinical fields.  Writable fields not inspected by any claim (workspace,
patient, source, the date columns, tags, notes) are omitted. -/
structure EntryPatch where
  title : Option String
  description : Option String
  status : Option String
  severity : Option String
  category : Option String
  verifiedByDoctor : Option Bool
  isCritical : Option Bool
deriving DecidableEq, Repr

/-- A patch body containing none of the fields. -/
def EntryPatch.empty : EntryPatch := ⟨none, none, none, none, none, none, none⟩

/-- Choice-field validation the `ModelSerializer` runs on the supplied
fields (there is no cross-field `validate` on
`MedicalHistoryEntrySerializer`, hence no date-order check on update). -/
def patchValid (p : EntryPatch) : Bool :=
  (match p.status with | none => true | some st => decide (st ∈ statusChoices))
  && (match p.severity with | none => true | some sv => decide (sv ∈ severityChoices))
  && (match p.category with | none => true | some c => decide (c ∈ categoryChoices))

/-- `serializer.save()` on a partial update: supplied fields overwrite,
absent fields keep their stored value. -/
def applyPatch (r : HistoryRecord) (p : EntryPatch) : HistoryRecord :=
  { r with
    title := p.title.getD r.title
    description := p.description.getD r.description
    status := p.status.getD r.status
    severity := match p.severity with | none => r.severity | some sv => some sv
    category := p.category.getD r.category
    verifiedByDoctor := p.verifiedByDoctor.getD r.verifiedByDoctor
    isCritical := p.isCritical.getD r.isCritical }

/-- `MedicalHistoryEntry.objects.get(id=entry_id)`: Django returns the
matching row. -/
def findRecord (s : LedgerState) (entryId : Nat) : Option HistoryRecord :=
  s.records.find? (fun r => r.id = entryId)

/-- `entry.workspace.doctor`: the doctor id of the record's workspace. -/
def workspaceDoctor (s : LedgerState) (wsId : Nat) : Option Nat :=
  (s.workspaces.find? (fun w => w.id = wsId)).map Workspace.doctorId

/-- Store an updated row back. -/
def updateRecordIn (s : LedgerState) (entryId : Nat) (upd : HistoryRecord) : LedgerState :=
  { s with records := s.records.map (fun r => if r.id = entryId then upd else r) }

/-- `doctor_update_history_entry` (views.py, lines 267-338): fetch by id
(404 when absent), 403 only when the record's workspace doctor is not the
caller — the record's `source`/`added_by` are never checked — then the
partial update; an `updated` timeline event is appended only when one of
the tracked fields `status`, `title`, `severity` changed. -/
def doctorUpdateEntry (s : LedgerState) (userId entryId : Nat) (p : EntryPatch) :
    Except ApiError LedgerState :=
  match findRecord s entryId with
  | none => .error (.notFound "History entry not found")
  | some entry =>
    if workspaceDoctor s entry.workspaceId ≠ some userId then .error .accessDenied
    else if ¬ patchValid p then .error (.badRequest "serializer errors")
    else
      let updated := applyPatch entry p
      let s1 := updateRecordIn s entryId updated
      if entry.status ≠ updated.status ∨ entry.title ≠ updated.title
          ∨ entry.severity ≠ updated.severity then
        .ok { s1 with events := s1.events ++ [⟨entryId, "updated", some userId, "doctor"⟩] }
      else .ok s1

/-- `patient_update_history_entry` (views.py, lines 790-827): fetch
filtered by the calling patient (404 when the record is not theirs),
403 when the record's source is not `MANUAL`, then the partial update;
tracked fields for the `updated` event are `status` and `title`. -/
def patientUpdateEntry (s : LedgerState) (userId entryId : Nat) (p : EntryPatch) :
    Except ApiError LedgerState :=
  match s.records.find? (fun r => r.id = entryId && r.patientId = userId) with
  | none => .error (.notFound "Entry not found or access denied")
  | some entry =>
    if entry.source ≠ "MANUAL" then .error .accessDenied
    else if ¬ patchValid p then .error (.badRequest "serializer errors")
    else
      let updated := applyPatch entry p
      let s1 := updateRecordIn s entryId updated
      if entry.status ≠ updated.status ∨ entry.title ≠ updated.title then
        .ok { s1 with events := s1.events ++ [⟨entryId, "updated", some userId, "patient"⟩] }
      else .ok s1

/-- `doctor_delete_history_entry` (views.py, lines 385-432): the same
workspace-doctor check as the update — no source/creator check — then a
hard delete.  No timeline event is appended, and the `CASCADE` on
`MedicalHistoryTimeline.history_entry` removes the record's events. -/
def doctorDeleteEntry (s : LedgerState) (userId entryId : Nat) :
    Except ApiError LedgerState :=
  match findRecord s entryId with
  | none => .error (.notFound "History entry not found")
  | some entry =>
    if workspaceDoctor s entry.workspaceId ≠ some userId then .error .accessDenied
    else
      .ok { s with records := s.records.filter (fun r => r.id ≠ entryId)
                   events := s.events.filter (fun ev => ev.historyEntryId ≠ entryId) }

/-- `patient_delete_history_entry` (views.py, lines 830-852): fetch
filtered by the calling patient, 403 unless the source is `MANUAL`, then
the same cascading hard delete with no event appended. -/
def patientDeleteEntry (s : LedgerState) (userId entryId : Nat) :
    Except ApiError LedgerState :=
  match s.records.find? (fun r => r.id = entryId && r.patientId = userId) with
  | none => .error (.notFound "Entry not found or access denied")
  | some entry =>
    if entry.source ≠ "MANUAL" then .error .accessDenied
    else
      .ok { s with records := s.records.filter (fun r => r.id ≠ entryId)
                   events := s.events.filter (fun ev => ev.historyEntryId ≠ entryId) }

/-- `doctor_verify_entry` (views.py, lines 341-382): workspace-doctor
check, then `verified_by_doctor = True` and one `verified` event.  The
view only ever writes `True`. -/
def doctorVerifyEntry (s : LedgerState) (userId entryId : Nat) :
    Except ApiError LedgerState :=
  match findRecord s entryId with
  | none => .error (.notFound "History entry not found")
  | some entry =>
    if workspaceDoctor s entry.workspaceId ≠ some userId then .error .accessDenied
    else
      let s1 := updateRecordIn s entryId { entry with verifiedByDoctor := true }
      .ok { s1 with events := s1.events ++ [⟨entryId, "verified", some userId, "doctor"⟩] }

/-- `doctor_get_entry_timeline` / `patient_get_entry_timeline`: the
record's events under the model's default ordering
`['-created_at']`, i.e. newest first — the reverse of insertion order. -/
def entryTimeline (s : LedgerState) (entryId : Nat) : List TimelineEvent :=
  (s.events.filter (fun ev => ev.historyEntryId = entryId)).reverse

/-! ### Operation sequences -/

/-- One invocation of a mutating patientHistory endpoint. -/
inductive LedgerOp where
  | doctorAdd (userId : Nat) (inp : DoctorAddInput)
  | patientAdd (userId : Nat) (inp : PatientAddInput)
  | bulkImport (userId : Nat) (req : BulkImportRequest)
  | doctorUpdate (userId entryId : Nat) (p : EntryPatch)
  | patientUpdate (userId entryId : Nat) (p : EntryPatch)
  | doctorDelete (userId entryId : Nat)
  | patientDelete (userId entryId : Nat)
  | verify (userId entryId : Nat)
deriving DecidableEq, Repr

/-- Run one endpoint call: a failed call returns its error response and
leaves the store untouched (every error path above returns before any
write). -/
def runOp (s : LedgerState) : LedgerOp → LedgerState
  | .doctorAdd u i => match doctorAddHistory s u i with | .ok s' => s' | .error _ => s
  | .patientAdd u i => match patientAddHistory s u i with | .ok s' => s' | .error _ => s
  | .bulkImport u r => match doctorBulkImport s u r with | .ok p => p.1 | .error _ => s
  | .doctorUpdate u e p => match doctorUpdateEntry s u e p with | .ok s' => s' | .error _ => s
  | .patientUpdate u e p => match patientUpdateEntry s u e p with | .ok s' => s' | .error _ => s
  | .doctorDelete u e => match doctorDeleteEntry s u e with | .ok s' => s' | .error _ => s
  | .patientDelete u e => match patientDeleteEntry s u e with | .ok s' => s' | .error _ => s
  | .verify u e => match doctorVerifyEntry s u e with | .ok s' => s' | .error _ => s

/-- Run a sequence of endpoint calls in order. -/
def runOps (s : LedgerState) (ops : List LedgerOp) : LedgerState :=
  ops.foldl runOp s

/-! ### Import helpers (`import_from_intake_form`, `import_from_medical_report`)

Each helper builds its records with hard-coded per-category fields; the
builders below are the `MedicalHistoryEntry.objects.create(...)` calls,
keeping exactly the fields the claims inspect. -/

/-- `source_reference_id` used by `import_from_intake_form`. -/
def intakeRefId (formId : Nat) : String := "intake_form_" ++ toString formId

/-- `source_reference_id` used by `import_from_medical_report`. -/
def reportRefId (reportId : Nat) : String := "report_" ++ toString reportId

/-- Condition record created by `import_from_intake_form`
(views.py, lines 1030-1042): status "active", `is_critical` left at its
model default `false`. -/
def intakeConditionRecord (id wsId patientId formId : Nat) (title descr : String) :
    HistoryRecord :=
  { id := id, workspaceId := wsId, patientId := patientId
    category := "condition", source := "INTAKE", title := title
    description := descr, status := "active"
    startDate := none, endDate := none
    sourceReferenceId := intakeRefId formId, sourceReferenceType := ""
    severity := none, isChronic := false
    requiresMonitoring := false, isCritical := false
    addedBy := none, verifiedByDoctor := false }

/-- Medication record created by `import_from_intake_form`
(views.py, lines 1064-1081): status "active". -/
def intakeMedicationRecord (id wsId patientId formId : Nat) (title descr : String) :
    HistoryRecord :=
  { intakeConditionRecord id wsId patientId formId title descr with
    category := "medication" }

/-- Allergy record created by `import_from_intake_form`
(views.py, lines 1108-1126): status "active" and `is_critical=True`
unconditionally ("Allergies are always critical"). -/
def intakeAllergyRecord (id wsId patientId formId : Nat) (title descr : String) :
    HistoryRecord :=
  { intakeConditionRecord id wsId patientId formId title descr with
    category := "allergy", isCritical := true }

/-- Surgery record created by `import_from_intake_form`
(views.py, lines 1153-1169): status "historical". -/
def intakeSurgeryRecord (id wsId patientId formId : Nat) (title descr : String) :
    HistoryRecord :=
  { intakeConditionRecord id wsId patientId formId title descr with
    category := "surgery", status := "historical" }

/-- Medication record created by `import_from_medical_report`
(views.py, lines 1292-1310): status "active". -/
def reportMedicationRecord (id wsId patientId reportId : Nat) (title descr : String) :
    HistoryRecord :=
  { id := id, workspaceId := wsId, patientId := patientId
    category := "medication", source := "OCR", title := title
    description := descr, status := "active"
    startDate := none, endDate := none
    sourceReferenceId := reportRefId reportId, sourceReferenceType := ""
    severity := none, isChronic := false
    requiresMonitoring := false, isCritical := false
    addedBy := none, verifiedByDoctor := false }

/-- Condition record created by `import_from_medical_report`
(views.py, lines 1354-1371): status "active". -/
def reportConditionRecord (id wsId patientId reportId : Nat) (title descr : String) :
    HistoryRecord :=
  { reportMedicationRecord id wsId patientId reportId title descr with
    category := "condition" }

/-- Lab-result record created by `import_from_medical_report`
(views.py, lines 1417-1438): status "historical" and
`is_critical = abnormal` (the extracted abnormal flag). -/
def reportLabResultRecord (id wsId patientId reportId : Nat) (title descr : String)
    (abnormal : Bool) : HistoryRecord :=
  { reportMedicationRecord id wsId patientId reportId title descr with
    category := "lab_result", status := "historical", isCritical := abnormal }

/-- Vital-sign record created by `import_from_medical_report`
(views.py, lines 1451-1468): category "lab_result", status "historical",
reference id suffixed `_vital`. -/
def reportVitalRecord (id wsId patientId reportId : Nat) (title descr : String) :
    HistoryRecord :=
  { reportMedicationRecord id wsId patientId reportId title descr with
    category := "lab_result", status := "historical"
    sourceReferenceId := reportRefId reportId ++ "_vital" }

/-- Visit record created by `import_from_medical_report` for
consultation / discharge-summary reports (views.py, lines 1477-1494):
status "historical". -/
def reportVisitRecord (id wsId patientId reportId : Nat) (title descr : String) :
    HistoryRecord :=
  { reportMedicationRecord id wsId patientId reportId title descr with
    category := "visit", status := "historical" }

/-! ### auto_sync_workspace (views.py, lines 1719-1848) -/

/-- `source_reference_id` used by the auto-sync intake loop. -/
def autoSyncFormRefId (formId : Nat) : String := "intake_form_" ++ toString formId

/-- `source_reference_id` used by the auto-sync report loop. -/
def autoSyncReportRefId (reportId : Nat) : String := "medical_report_" ++ toString reportId

/-- The auto-sync dedup check for an intake form (views.py, lines
1745-1750): does a record with the same
`(workspace, source='INTAKE', source_reference_id)` exist? -/
def hasIntakeImport (s : LedgerState) (wsId formId : Nat) : Bool :=
  s.records.any (fun r =>
    r.workspaceId = wsId && r.source = "INTAKE"
      && r.sourceReferenceId = autoSyncFormRefId formId)

/-- The auto-sync dedup check for a medical report (views.py, lines
1792-1796). -/
def hasReportImport (s : LedgerState) (wsId reportId : Nat) : Bool :=
  s.records.any (fun r =>
    r.workspaceId = wsId && r.source = "OCR"
      && r.sourceReferenceId = autoSyncReportRefId reportId)

/-- One iteration of the `auto_sync_workspace` intake-form loop
(views.py, lines 1744-1782).  When the dedup check finds an existing
record the whole document is skipped.  Otherwise the AI collaborator
returns `aiEntryCount` candidate entries; each
`MedicalHistoryEntry.objects.create` call passes the keyword
`doctor=workspace.doctor`, a field `MedicalHistoryEntry` does not have,
so the first create raises `TypeError`, the per-form handler appends an
error string, and no record is inserted (with zero candidates the loop
body never runs and nothing is inserted either). -/
def autoSyncIntakeForm (s : LedgerState) (errors : List String)
    (wsId formId aiEntryCount : Nat) : LedgerState × List String :=
  if hasIntakeImport s wsId formId then (s, errors)
  else if aiEntryCount = 0 then (s, errors)
  else (s, errors ++ ["Form " ++ toString formId ++ ": unexpected keyword argument"])

/-- One iteration of the `auto_sync_workspace` report loop (views.py,
lines 1791-1834), with the same skip check and the same failing
`doctor=` keyword on the create path. -/
def autoSyncReport (s : LedgerState) (errors : List String)
    (wsId reportId aiEntryCount : Nat) : LedgerState × List String :=
  if hasReportImport s wsId reportId then (s, errors)
  else if aiEntryCount = 0 then (s, errors)
  else (s, errors ++ ["Report " ++ toString reportId ++ ": unexpected keyword argument"])

/-! ### Specification-side functions and predicates used by the claims -/

/-- The spec's count of non-empty expected categories: how many of the
six expected categories have at least one record. -/
def nonEmptyCategories (entries : List HistoryRecord) : Nat :=
  (categoryChoices.filter (fun c => entries.any (fun e => e.category = c))).length

/-- The endpoint call carries no `verified_by_doctor` field in its update
payload (creates, deletes and verifications trivially qualify). -/
def opKeepsVerifiedField : LedgerOp → Prop
  | .doctorUpdate _ _ p => p.verifiedByDoctor = none
  | .patientUpdate _ _ p => p.verifiedByDoctor = none
  | _ => True

/-- Well-formedness a Django autoincrement store always has: every stored
primary key is below the next key to be assigned. -/
def StateWF (s : LedgerState) : Prop :=
  ∀ r ∈ s.records, r.id < s.nextId

/-- The inductive invariant for the one-way verification claim: the
tracked id is already allocated, the store is well formed, and every
stored record with that id is verified. -/
def VerInv (eid : Nat) (s : LedgerState) : Prop :=
  eid < s.nextId ∧ StateWF s
    ∧ ∀ r ∈ s.records, r.id = eid → r.verifiedByDoctor = true

/-! ### Concrete fixtures for the counterexamples and witnesses -/

/-- A workspace: doctor user 10, patient user 20. -/
def ws1 : Workspace := ⟨1, 10, 20⟩

/-- A store holding only that workspace. -/
def baseState : LedgerState := { workspaces := [ws1], records := [], events := [], nextId := 0 }

/-- The claim's first example series: four observations of value 10. -/
def stablePoints : List TrendPoint :=
  [⟨"2024-01-01", .num 10, false, "OCR"⟩, ⟨"2024-01-02", .num 10, false, "OCR"⟩,
   ⟨"2024-01-03", .num 10, false, "OCR"⟩, ⟨"2024-01-04", .num 10, false, "OCR"⟩]

/-- The claim's second example series: values 5, 5, 9, 9 (an 80% rise
between the two halves). -/
def risingPoints : List TrendPoint :=
  [⟨"2024-01-01", .num 5, false, "OCR"⟩, ⟨"2024-01-02", .num 5, false, "OCR"⟩,
   ⟨"2024-01-03", .num 9, true, "OCR"⟩, ⟨"2024-01-04", .num 9, true, "OCR"⟩]

/-- A series whose first half has mean 0, so the spec's `diffPct`
division is undefined and the code raises `ZeroDivisionError`. -/
def zeroMeanPoints : List TrendPoint :=
  [⟨"2024-01-01", .num 0, false, "OCR"⟩, ⟨"2024-01-02", .num 4, false, "OCR"⟩]

/-- A series containing a non-empty, non-numeric value. -/
def nonNumericPoints : List TrendPoint :=
  [⟨"2024-01-01", .num 1, false, "OCR"⟩, ⟨"2024-01-02", .str "n/a", false, "OCR"⟩]

/-- A trend holding one observation: value 5 on 2024-01-02. -/
def oneObsTrend : ClinicalTrend :=
  { dataPoints := [⟨"2024-01-02", .num 5, false, "OCR"⟩], trendDirection := "unknown",
    latestValue := .num 5, latestValueDate := some "2024-01-02", isCurrentlyAbnormal := false }

/-- A trend with no observations yet. -/
def emptyTrend : ClinicalTrend :=
  { dataPoints := [], trendDirection := "unknown", latestValue := .empty,
    latestValueDate := none, isCurrentlyAbnormal := false }

/-- A condition record with status active, the scenario of §8 of the
spec (one imported condition in an otherwise empty workspace). -/
def condRecord : HistoryRecord :=
  { id := 0, workspaceId := 1, patientId := 20
    category := "condition", source := "OCR", title := "Hypertension"
    description := "", status := "active", startDate := none, endDate := none
    sourceReferenceId := "report_7", sourceReferenceType := "MedicalReport"
    severity := none, isChronic := false, requiresMonitoring := false
    isCritical := false, addedBy := none, verifiedByDoctor := false }

/-- The `report_7` candidate batch of the spec's §8 scenario: one
condition from source OCR. -/
def report7Request : BulkImportRequest :=
  { workspaceId := 1, source := "OCR", sourceReferenceId := "report_7"
    sourceReferenceType := "MedicalReport"
    entries := [{ category := "condition", title := "Hypertension", description := ""
                  status := none, startDate := none, endDate := none, severity := none
                  isChronic := false, requiresMonitoring := false, isCritical := false }] }

/-- The store after the doctor imports the `report_7` batch once. -/
def afterFirstImport : LedgerState :=
  match doctorBulkImport baseState 10 report7Request with
  | .ok out => out.1
  | .error _ => baseState

/-- The store after the doctor imports the identical `report_7` batch a
second time. -/
def afterSecondImport : LedgerState :=
  match doctorBulkImport afterFirstImport 10 report7Request with
  | .ok out => out.1
  | .error _ => afterFirstImport

/-- A surgery candidate that carries no status field. -/
def surgeryCandidate : BulkEntry :=
  { category := "surgery", title := "Appendectomy", description := ""
    status := none, startDate := none, endDate := none, severity := none
    isChronic := false, requiresMonitoring := false, isCritical := false }

/-- An allergy candidate whose `is_critical` input is false. -/
def allergyCandidate : BulkEntry :=
  { category := "allergy", title := "Penicillin", description := ""
    status := none, startDate := none, endDate := none, severity := none
    isChronic := false, requiresMonitoring := false, isCritical := false }

/-- A patient manual entry whose end date (day 50) is before its start
date (day 100). -/
def badDatesInput : PatientAddInput :=
  { category := "condition", title := "Back pain", description := ""
    status := none, startDate := some 100, endDate := some 50, severity := none
    isChronic := false, requiresMonitoring := false, isCritical := false }

/-- The store after the patient submits the inverted-dates entry. -/
def afterBadDates : LedgerState :=
  match patientAddHistory baseState 20 badDatesInput with
  | .ok s => s
  | .error _ => baseState

/-- A MANUAL record created by patient 20 in workspace 1. -/
def manualRecord : HistoryRecord :=
  { id := 0, workspaceId := 1, patientId := 20
    category := "condition", source := "MANUAL", title := "Back pain"
    description := "", status := "active", startDate := none, endDate := none
    sourceReferenceId := "", sourceReferenceType := ""
    severity := none, isChronic := false, requiresMonitoring := false
    isCritical := false, addedBy := some 20, verifiedByDoctor := false }

/-- A store holding the patient's MANUAL record. -/
def manualState : LedgerState :=
  { workspaces := [ws1], records := [manualRecord]
    events := [⟨0, "added", some 20, "patient"⟩], nextId := 1 }

/-- A patch renaming the entry. -/
def renamePatch : EntryPatch := { EntryPatch.empty with title := some "Chronic back pain" }

/-- A patch touching only the free-text description. -/
def descriptionPatch : EntryPatch := { EntryPatch.empty with description := some "more detail" }

/-- A payload resetting the verification flag, as
`MedicalHistoryEntrySerializer` accepts it. -/
def unverifyPatch : EntryPatch := { EntryPatch.empty with verifiedByDoctor := some false }

/-- A DOCTOR-source record of workspace 1 that the doctor has verified. -/
def verifiedDoctorRecord : HistoryRecord :=
  { manualRecord with source := "DOCTOR", addedBy := some 10, verifiedByDoctor := true }

/-- A store holding the verified DOCTOR record. -/
def verifiedState : LedgerState :=
  { workspaces := [ws1], records := [verifiedDoctorRecord]
    events := [⟨0, "added", some 10, "doctor"⟩, ⟨0, "verified", some 10, "doctor"⟩]
    nextId := 1 }

/-- A doctor manual-entry input for the audit scenario. -/
def doctorCondInput : DoctorAddInput :=
  { workspaceId := 1, category := "condition", title := "Hypertension", description := ""
    status := none, startDate := none, endDate := none, severity := none
    isChronic := false, requiresMonitoring := false, isCritical := false }

/-- The store after the doctor adds the condition (mutation 1). -/
def auditState1 : LedgerState := runOp baseState (.doctorAdd 10 doctorCondInput)

/-- The store after the doctor then edits only the description
(mutation 2). -/
def auditState2 : LedgerState := runOp auditState1 (.doctorUpdate 10 0 descriptionPatch)

/-- The store after the doctor then deletes the record (mutation 3). -/
def auditState3 : LedgerState := runOp auditState2 (.doctorDelete 10 0)

/-- The store after the doctor adds the condition and then renames it —
an update that does change a tracked field. -/
def auditState2b : LedgerState := runOp auditState1 (.doctorUpdate 10 0 renamePatch)

/-- A doctor manual entry whose end date (day 50) is before its start
date (day 100). -/
def doctorBadDatesInput : DoctorAddInput :=
  { workspaceId := 1, category := "condition", title := "Back pain", description := ""
    status := none, startDate := some 100, endDate := some 50, severity := none
    isChronic := false, requiresMonitoring := false, isCritical := false }

/-- A sequence of endpoint calls whose update payloads never carry the
`verified_by_doctor` field: a rename followed by a re-verification. -/
def c9Ops : List LedgerOp := [.doctorUpdate 10 0 renamePatch, .verify 10 0]

/-- An INTAKE record carrying the dedup reference of intake form 3. -/
def intakeImportedRecord : HistoryRecord :=
  { condRecord with source := "INTAKE", sourceReferenceId := "intake_form_3" }

/-- A store in which intake form 3 has already been imported. -/
def intakeImportedState : LedgerState :=
  { workspaces := [ws1], records := [intakeImportedRecord], events := [], nextId := 1 }

/-! ## Helper lemmas: trend engine -/

lemma pyFloatList_length_le (pts : List TrendPoint) (vs : List ℚ)
    (h : pyFloatList pts = some vs) : vs.length ≤ pts.length := by
  induction pts generalizing vs with
  | nil => simp [pyFloatList] at h; simp [h]
  | cons p ps ih =>
    cases hv : p.value with
    | empty =>
      rw [pyFloatList, hv] at h
      exact (ih vs h).trans (Nat.le_succ _)
    | num q =>
      rw [pyFloatList, hv] at h
      rcases Option.map_eq_some'.1 h with ⟨vs', hvs', rfl⟩
      simpa using Nat.succ_le_succ (ih vs' hvs')
    | str s => rw [pyFloatList, hv] at h; cases h

lemma trendDirectionOf_parse_none (pts : List TrendPoint) (ab : Bool)
    (h : pyFloatList pts = none) : trendDirectionOf pts ab = "unknown" := by
  unfold trendDirectionOf
  split
  · rfl
  · rw [h]

lemma trendDirectionOf_few (pts : List TrendPoint) (ab : Bool) (vs : List ℚ)
    (h : pyFloatList pts = some vs) (hlen : vs.length < 2) :
    trendDirectionOf pts ab = "unknown" := by
  unfold trendDirectionOf
  split
  · rfl
  · rw [h]
    simp only
    rw [if_pos hlen]

lemma trendDirectionOf_zero (pts : List TrendPoint) (ab : Bool) (vs : List ℚ)
    (h : pyFloatList pts = some vs) (hlen : 2 ≤ vs.length)
    (hz : firstHalfAvg vs = 0) : trendDirectionOf pts ab = "unknown" := by
  have hle := pyFloatList_length_le pts vs h
  unfold trendDirectionOf
  rw [if_neg (by omega), h]
  simp only
  rw [if_neg (by omega), if_pos hz]

lemma trendDirectionOf_formula (pts : List TrendPoint) (ab : Bool) (vs : List ℚ)
    (h : pyFloatList pts = some vs) (hlen : 2 ≤ vs.length)
    (hz : firstHalfAvg vs ≠ 0) :
    trendDirectionOf pts ab = directionFromDiff (diffPercentageOf vs) ab := by
  have hle := pyFloatList_length_le pts vs h
  unfold trendDirectionOf
  rw [if_neg (by omega), h]
  simp only
  rw [if_neg (by omega), if_neg hz]

lemma directionFromDiff_mem (d : ℚ) (ab : Bool) :
    directionFromDiff d ab = "improving" ∨ directionFromDiff d ab = "worsening" ∨
    directionFromDiff d ab = "stable" ∨ directionFromDiff d ab = "fluctuating" := by
  unfold directionFromDiff
  split_ifs <;> simp

lemma trendDirectionOf_mem (pts : List TrendPoint) (ab : Bool) :
    trendDirectionOf pts ab = "improving" ∨ trendDirectionOf pts ab = "worsening" ∨
    trendDirectionOf pts ab = "stable" ∨ trendDirectionOf pts ab = "fluctuating" ∨
    trendDirectionOf pts ab = "unknown" := by
  unfold trendDirectionOf
  split
  · simp
  · split
    · simp
    · split
      · simp
      · split
        · simp
        · exact (directionFromDiff_mem _ ab).elim (fun h => Or.inl h)
            (fun h => h.elim (fun h => Or.inr (Or.inl h))
              (fun h => h.elim (fun h => Or.inr (Or.inr (Or.inl h)))
                (fun h => Or.inr (Or.inr (Or.inr (Or.inl h))))))

lemma directionFromDiff_stable (d : ℚ) (ab : Bool) (h : |d| < 5) :
    directionFromDiff d ab = "stable" := by
  unfold directionFromDiff
  rw [if_pos h]

lemma directionFromDiff_up (d : ℚ) (h : 10 < d) :
    directionFromDiff d true = "worsening" ∧ directionFromDiff d false = "improving" := by
  have habs : ¬ |d| < 5 := by
    rw [not_lt, abs_of_pos (by linarith)]; linarith
  unfold directionFromDiff
  constructor <;> (rw [if_neg habs, if_pos h]; simp)

lemma directionFromDiff_down (d : ℚ) (h : d < -10) :
    directionFromDiff d true = "improving" ∧ directionFromDiff d false = "worsening" := by
  have habs : ¬ |d| < 5 := by
    rw [not_lt, abs_of_neg (by linarith)]; linarith
  have hup : ¬ (10 : ℚ) < d := by linarith
  unfold directionFromDiff
  constructor <;> (rw [if_neg habs, if_neg hup, if_pos h]; simp)

lemma directionFromDiff_fluct (d : ℚ) (ab : Bool) (h1 : ¬ |d| < 5) (h2 : ¬ 10 < d)
    (h3 : ¬ d < -10) : directionFromDiff d ab = "fluctuating" := by
  unfold directionFromDiff
  rw [if_neg h1, if_neg h2, if_neg h3]

lemma insertPoint_perm (p : TrendPoint) (l : List TrendPoint) :
    (insertPoint p l).Perm (p :: l) := by
  induction l with
  | nil => simp [insertPoint]
  | cons q qs ih =>
    rw [insertPoint]
    split
    · exact (ih.cons q).trans (List.Perm.swap p q qs)
    · exact List.Perm.refl _

lemma foldl_insertPoint_perm (l : List TrendPoint) :
    ∀ acc, (l.foldl (fun a p => insertPoint p a) acc).Perm (acc ++ l) := by
  induction l with
  | nil => intro acc; simp
  | cons p ps ih =>
    intro acc
    have h1 := ih (insertPoint p acc)
    have h2 : (insertPoint p acc ++ ps).Perm ((p :: acc) ++ ps) :=
      (insertPoint_perm p acc).append_right ps
    have h3 : (p :: (acc ++ ps)).Perm (acc ++ p :: ps) := List.perm_middle.symm
    exact (h1.trans h2).trans h3

lemma sortPoints_perm (l : List TrendPoint) : (sortPoints l).Perm l := by
  simpa using foldl_insertPoint_perm l []

lemma mem_insertPoint {x p : TrendPoint} {l : List TrendPoint}
    (h : x ∈ insertPoint p l) : x = p ∨ x ∈ l := by
  have := (insertPoint_perm p l).subset h
  simpa using this

lemma insertPoint_sorted (p : TrendPoint) (l : List TrendPoint)
    (h : l.Pairwise (fun a b => a.date ≤ b.date)) :
    (insertPoint p l).Pairwise (fun a b => a.date ≤ b.date) := by
  induction l with
  | nil => simp [insertPoint]
  | cons q qs ih =>
    rw [List.pairwise_cons] at h
    rw [insertPoint]
    split
    · rename_i hqp
      refine List.pairwise_cons.2 ⟨?_, ih h.2⟩
      intro x hx
      rcases mem_insertPoint hx with rfl | hx
      · exact hqp
      · exact h.1 x hx
    · rename_i hqp
      have hpq : p.date ≤ q.date := le_of_lt (lt_of_not_le hqp)
      refine List.pairwise_cons.2 ⟨?_, List.pairwise_cons.2 ⟨h.1, h.2⟩⟩
      intro x hx
      rcases List.mem_cons.1 hx with rfl | hx
      · exact hpq
      · exact hpq.trans (h.1 x hx)

lemma foldl_insertPoint_sorted (l : List TrendPoint) :
    ∀ acc, acc.Pairwise (fun a b => a.date ≤ b.date) →
      (l.foldl (fun a p => insertPoint p a) acc).Pairwise (fun a b => a.date ≤ b.date) := by
  induction l with
  | nil => intro acc h; simpa using h
  | cons p ps ih => intro acc h; exact ih _ (insertPoint_sorted p acc h)

lemma sortPoints_sorted (l : List TrendPoint) :
    (sortPoints l).Pairwise (fun a b => a.date ≤ b.date) :=
  foldl_insertPoint_sorted l [] (List.Pairwise.nil)

lemma sortPoints_strict (l : List TrendPoint)
    (hn : (l.map TrendPoint.date).Nodup) :
    (sortPoints l).Pairwise (fun a b => a.date < b.date) := by
  have hperm : ((sortPoints l).map TrendPoint.date).Perm (l.map TrendPoint.date) :=
    (sortPoints_perm l).map _
  have hn' : ((sortPoints l).map TrendPoint.date).Nodup := hperm.nodup_iff.2 hn
  have hne : (sortPoints l).Pairwise (fun a b => a.date ≠ b.date) :=
    (List.pairwise_map).1 hn'
  exact ((sortPoints_sorted l).and hne).imp (fun h => lt_of_le_of_ne h.1 h.2)

/-! ## Claim C3 — trend classification -/

/-- Claim C3: `analyze_trend` is the deterministic classification the
spec describes (it is a pure Lean function of the ordered points and the
stored current-abnormality flag).  With fewer than two numeric points, or
with an unparseable non-empty value, the direction is "unknown";
otherwise, writing diffPct for the half-to-half percentage change, the
direction follows the threshold table: absolute change below 5 is
"stable", a rise above 10 is "worsening" when the current value is
abnormal and "improving" otherwise, a fall below −10 the mirror image,
anything else "fluctuating".  In particular the series [10,10,10,10]
with no abnormal flag classifies "stable" and the series [5,5,9,9]
classifies "worsening" with the current value abnormal and "improving"
without. -/
theorem c3_trend_classification :
    (∀ (pts : List TrendPoint) (ab : Bool) (vs : List ℚ),
        pyFloatList pts = some vs → vs.length < 2 → trendDirectionOf pts ab = "unknown")
  ∧ (∀ (pts : List TrendPoint) (ab : Bool),
        pyFloatList pts = none → trendDirectionOf pts ab = "unknown")
  ∧ (∀ (pts : List TrendPoint) (ab : Bool) (vs : List ℚ),
        pyFloatList pts = some vs → 2 ≤ vs.length → firstHalfAvg vs ≠ 0 →
        trendDirectionOf pts ab = directionFromDiff (diffPercentageOf vs) ab)
  ∧ (∀ (d : ℚ) (ab : Bool), |d| < 5 → directionFromDiff d ab = "stable")
  ∧ (∀ d : ℚ, 10 < d →
        directionFromDiff d true = "worsening" ∧ directionFromDiff d false = "improving")
  ∧ (∀ d : ℚ, d < -10 →
        directionFromDiff d true = "improving" ∧ directionFromDiff d false = "worsening")
  ∧ (∀ (d : ℚ) (ab : Bool), ¬ |d| < 5 → ¬ 10 < d → ¬ d < -10 →
        directionFromDiff d ab = "fluctuating")
  ∧ trendDirectionOf stablePoints false = "stable"
  ∧ trendDirectionOf risingPoints true = "worsening"
  ∧ trendDirectionOf risingPoints false = "improving" := by
  refine ⟨trendDirectionOf_few, trendDirectionOf_parse_none, trendDirectionOf_formula,
    directionFromDiff_stable, directionFromDiff_up, directionFromDiff_down,
    directionFromDiff_fluct, ?_, ?_, ?_⟩
  · simp only [trendDirectionOf, pyFloatList, stablePoints]
    norm_num [firstHalfAvg, secondHalfAvg, diffPercentageOf, directionFromDiff]
  · simp only [trendDirectionOf, pyFloatList, risingPoints]
    norm_num [firstHalfAvg, secondHalfAvg, diffPercentageOf, directionFromDiff]
  · simp only [trendDirectionOf, pyFloatList, risingPoints]
    norm_num [firstHalfAvg, secondHalfAvg, diffPercentageOf, directionFromDiff]

/-- Witness for C3: the 80%-rise series satisfies the hypotheses of the
formula conjunct, which evaluates on it. -/
theorem c3_trend_classification_witness :
    pyFloatList risingPoints = some [5, 5, 9, 9] ∧ firstHalfAvg [5, 5, 9, 9] ≠ (0 : ℚ) ∧
    trendDirectionOf risingPoints true = directionFromDiff (diffPercentageOf [5, 5, 9, 9]) true :=
  ⟨by simp [pyFloatList, risingPoints], by norm_num [firstHalfAvg],
   c3_trend_classification.2.2.1 risingPoints true [5, 5, 9, 9]
     (by simp [pyFloatList, risingPoints]) (by norm_num) (by norm_num [firstHalfAvg])⟩

/-! ## Claim C10 — analyze_trend total, exceptions mapped to unknown -/

/-- Claim C10: for every contents of the data-point list — empty or
non-numeric value strings and zero first-half means included —
`analyze_trend` terminates with one of the five directions; in the
zero-first-half-mean case (Python `ZeroDivisionError`) and the
unparseable-value case (`ValueError`) the stored direction is
"unknown". -/
theorem c10_analyze_trend_safety :
    (∀ t : ClinicalTrend,
        (analyzeTrend t).trendDirection = "improving" ∨
        (analyzeTrend t).trendDirection = "worsening" ∨
        (analyzeTrend t).trendDirection = "stable" ∨
        (analyzeTrend t).trendDirection = "fluctuating" ∨
        (analyzeTrend t).trendDirection = "unknown")
  ∧ (∀ (pts : List TrendPoint) (ab : Bool) (vs : List ℚ),
        pyFloatList pts = some vs → 2 ≤ vs.length → firstHalfAvg vs = 0 →
        trendDirectionOf pts ab = "unknown")
  ∧ (∀ (pts : List TrendPoint) (ab : Bool),
        pyFloatList pts = none → trendDirectionOf pts ab = "unknown") := by
  refine ⟨fun t => ?_, trendDirectionOf_zero, trendDirectionOf_parse_none⟩
  exact trendDirectionOf_mem t.dataPoints t.isCurrentlyAbnormal

/-- Witness for C10: a concrete zero-first-half-mean series and a
concrete non-numeric series both classify "unknown". -/
theorem c10_analyze_trend_safety_witness :
    pyFloatList zeroMeanPoints = some [0, 4] ∧ firstHalfAvg [0, 4] = (0 : ℚ) ∧
    trendDirectionOf zeroMeanPoints false = "unknown" ∧
    pyFloatList nonNumericPoints = none ∧
    trendDirectionOf nonNumericPoints true = "unknown" :=
  ⟨by simp [pyFloatList, zeroMeanPoints], by norm_num [firstHalfAvg],
   c10_analyze_trend_safety.2.1 zeroMeanPoints false [0, 4]
     (by simp [pyFloatList, zeroMeanPoints]) (by norm_num) (by norm_num [firstHalfAvg]),
   by simp [pyFloatList, nonNumericPoints],
   c10_analyze_trend_safety.2.2 nonNumericPoints true
     (by simp [pyFloatList, nonNumericPoints])⟩

/-! ## Claim C8 — add_data_point invariants -/

/-- Claim C8 (amended): after `add_data_point` the stored points are
sorted strictly ascending by date (given the no-duplicate-dates
invariant held before); an observation whose date is already present is
silently discarded — the trend object is left entirely unchanged, no
overwrite happens; when the date is new, the point is inserted and
`latest_value`/`latest_value_date`/`is_currently_abnormal` are set from
the newly added observation, which is the maximum-date point only when
the new date exceeds every stored date. -/
theorem c8_add_data_point_amended (t : ClinicalTrend) (date : String) (value : PyValue)
    (ab : Bool) (src : String) :
    ((t.dataPoints.map TrendPoint.date).contains date = true →
      addDataPoint t date value ab src = t)
  ∧ ((t.dataPoints.map TrendPoint.date).contains date = false →
     (t.dataPoints.map TrendPoint.date).Nodup →
      (addDataPoint t date value ab src).dataPoints.Pairwise
          (fun a b => a.date < b.date)
      ∧ (addDataPoint t date value ab src).dataPoints.Perm
          (t.dataPoints ++ [⟨date, value, ab, src⟩])
      ∧ (addDataPoint t date value ab src).latestValue = value
      ∧ (addDataPoint t date value ab src).latestValueDate = some date
      ∧ (addDataPoint t date value ab src).isCurrentlyAbnormal = ab) := by
  constructor
  · intro h
    unfold addDataPoint
    rw [if_pos h]
  · intro h hn
    have hnotmem : date ∉ t.dataPoints.map TrendPoint.date := by simpa using h
    have hn2 : ((t.dataPoints ++ [(⟨date, value, ab, src⟩ : TrendPoint)]).map
        TrendPoint.date).Nodup := by
      rw [List.map_append]
      refine List.Nodup.append hn (by simp) ?_
      intro a ha hb
      simp only [List.map_cons, List.map_nil, List.mem_singleton] at hb
      subst hb
      exact hnotmem ha
    unfold addDataPoint
    rw [if_neg (by rw [h]; simp)]
    exact ⟨sortPoints_strict _ hn2, sortPoints_perm _, rfl, rfl, rfl⟩

/-- Witness for C8 (amended): a same-date re-observation leaves a
concrete trend unchanged, and a fresh observation on an empty trend
lands sorted with the latest fields set. -/
theorem c8_add_data_point_amended_witness :
    addDataPoint oneObsTrend "2024-01-02" (.num 7) true "OCR" = oneObsTrend
  ∧ (addDataPoint emptyTrend "2024-01-03" (.num 6) true "OCR").dataPoints.Pairwise
      (fun a b => a.date < b.date)
  ∧ (addDataPoint emptyTrend "2024-01-03" (.num 6) true "OCR").latestValue = .num 6 :=
  ⟨(c8_add_data_point_amended oneObsTrend "2024-01-02" (.num 7) true "OCR").1 (by decide),
   ((c8_add_data_point_amended emptyTrend "2024-01-03" (.num 6) true "OCR").2
      (by decide) (by decide)).1,
   ((c8_add_data_point_amended emptyTrend "2024-01-03" (.num 6) true "OCR").2
      (by decide) (by decide)).2.2.1⟩

/-- Counterexample for C8 as stated: re-observing date 2024-01-02 with
value 7 does not overwrite the stored value 5 — the trend is unchanged —
and after adding an observation dated before the stored maximum, the
latest fields hold that older observation (value 3, date 2024-01-01)
while the maximum-date point (2024-01-02, value 5) is still in the
series. -/
theorem c8_add_data_point_counterexample :
    addDataPoint oneObsTrend "2024-01-02" (.num 7) true "OCR" = oneObsTrend
  ∧ (addDataPoint oneObsTrend "2024-01-02" (.num 7) true "OCR").dataPoints
      ≠ [⟨"2024-01-02", .num 7, true, "OCR"⟩]
  ∧ (addDataPoint oneObsTrend "2024-01-01" (.num 3) false "OCR").latestValue = .num 3
  ∧ (addDataPoint oneObsTrend "2024-01-01" (.num 3) false "OCR").latestValueDate
      = some "2024-01-01"
  ∧ (⟨"2024-01-02", .num 5, false, "OCR"⟩ : TrendPoint)
      ∈ (addDataPoint oneObsTrend "2024-01-01" (.num 3) false "OCR").dataPoints := by
  refine ⟨by decide, by decide, by decide, by decide, ?_⟩
  show _ ∈ (addDataPoint oneObsTrend "2024-01-01" (.num 3) false "OCR").dataPoints
  unfold addDataPoint oneObsTrend
  rw [if_neg (by decide)]
  exact (sortPoints_perm _).mem_iff.2 (by simp)

/-! ## Claim C2 — rollup correctness -/

lemma filter_length_pos_iff_any (l : List HistoryRecord) (p : HistoryRecord → Bool) :
    0 < (l.filter p).length ↔ l.any p = true := by
  rw [List.length_pos, Ne, List.filter_eq_nil_iff]
  push_neg
  simp [List.any_eq_true]

lemma completeness_eq (entries : List HistoryRecord) :
    (refreshSummary entries).completenessScore = nonEmptyCategories entries * 100 / 6 := by
  simp only [refreshSummary, nonEmptyCategories, categoryChoices,
    List.filter_cons, List.filter_nil, gt_iff_lt, filter_length_pos_iff_any]
  cases h1 : entries.any (fun e => e.category = "condition") <;>
    cases h2 : entries.any (fun e => e.category = "medication") <;>
    cases h3 : entries.any (fun e => e.category = "allergy") <;>
    cases h4 : entries.any (fun e => e.category = "surgery") <;>
    cases h5 : entries.any (fun e => e.category = "visit") <;>
    cases h6 : entries.any (fun e => e.category = "lab_result") <;>
    simp [h1, h2, h3, h4, h5, h6]

/-- Claim C2 (amended): after `refresh_summary` every counted field
equals the count of the matching records, and the completeness score is
the FLOOR of `100 × nonEmptyCategories / 6` (Python's `int()` truncation
of the float product), not the rounded value: a workspace holding
exactly one active condition record scores 16, not the claim's 17. -/
theorem c2_rollup_amended (entries : List HistoryRecord) :
    (refreshSummary entries).totalConditions
        = entries.countP (fun e => e.category = "condition")
  ∧ (refreshSummary entries).activeConditions
        = entries.countP (fun e => e.category = "condition" && e.status = "active")
  ∧ (refreshSummary entries).totalMedications
        = entries.countP (fun e => e.category = "medication")
  ∧ (refreshSummary entries).currentMedications
        = entries.countP (fun e => e.category = "medication" && e.status = "active")
  ∧ (refreshSummary entries).totalAllergies
        = entries.countP (fun e => e.category = "allergy")
  ∧ (refreshSummary entries).totalSurgeries
        = entries.countP (fun e => e.category = "surgery")
  ∧ (refreshSummary entries).totalVisits
        = entries.countP (fun e => e.category = "visit")
  ∧ (refreshSummary entries).totalLabResults
        = entries.countP (fun e => e.category = "lab_result")
  ∧ (refreshSummary entries).completenessScore
        = nonEmptyCategories entries * 100 / 6
  ∧ (refreshSummary [condRecord]).completenessScore = 16 := by
  refine ⟨?_, ?_, ?_, ?_, ?_, ?_, ?_, ?_, completeness_eq entries, by decide⟩
  all_goals simp [refreshSummary, List.countP_eq_length_filter]

/-- Counterexample for C2 as stated: the spec's §8 scenario workspace —
exactly one active condition record — refreshes to completeness 16,
because `int((1/6)*100)` truncates 16.66… downward, while the claim
requires `round(100×1/6) = 17`. -/
theorem c2_rollup_counterexample :
    (refreshSummary [condRecord]).totalConditions = 1
  ∧ (refreshSummary [condRecord]).activeConditions = 1
  ∧ (refreshSummary [condRecord]).completenessScore = 16
  ∧ (refreshSummary [condRecord]).completenessScore ≠ 17 := by
  refine ⟨by decide, by decide, by decide, by decide⟩

/-! ## Claim C7 — import defaults -/

/-- Claim C7 (amended): the integration helpers
`import_from_intake_form` and `import_from_medical_report` insert
records with fixed per-category statuses — "active" for
condition/medication/allergy, "historical" for surgery, lab results,
vitals and visits, with no candidate override — and force
`is_critical = true` on intake allergy records (OCR lab records get
`is_critical` from the extracted abnormal flag).  The
`doctor_bulk_import_history` endpoint, however, defaults the status to
"active" for EVERY category and takes `is_critical` verbatim from the
candidate: allergies are not forced critical there. -/
theorem c7_import_defaults_amended :
    (∀ (id wsId patientId : Nat) (source refId refType : String) (e : BulkEntry),
        (bulkEntryRecord id wsId patientId source refId refType e).status
            = e.status.getD "active"
      ∧ (bulkEntryRecord id wsId patientId source refId refType e).isCritical
            = e.isCritical)
  ∧ (∀ (id wsId patientId formId : Nat) (title descr : String),
        (intakeConditionRecord id wsId patientId formId title descr).status = "active"
      ∧ (intakeMedicationRecord id wsId patientId formId title descr).status = "active"
      ∧ (intakeAllergyRecord id wsId patientId formId title descr).status = "active"
      ∧ (intakeAllergyRecord id wsId patientId formId title descr).isCritical = true
      ∧ (intakeSurgeryRecord id wsId patientId formId title descr).status = "historical")
  ∧ (∀ (id wsId patientId reportId : Nat) (title descr : String) (abnormal : Bool),
        (reportMedicationRecord id wsId patientId reportId title descr).status = "active"
      ∧ (reportConditionRecord id wsId patientId reportId title descr).status = "active"
      ∧ (reportLabResultRecord id wsId patientId reportId title descr abnormal).status
            = "historical"
      ∧ (reportLabResultRecord id wsId patientId reportId title descr abnormal).isCritical
            = abnormal
      ∧ (reportVitalRecord id wsId patientId reportId title descr).status = "historical"
      ∧ (reportVisitRecord id wsId patientId reportId title descr).status = "historical") := by
  refine ⟨fun _ _ _ _ _ _ _ => ⟨rfl, rfl⟩, fun _ _ _ _ _ _ => ⟨rfl, rfl, rfl, rfl, rfl⟩,
    fun _ _ _ _ _ _ _ => ⟨rfl, rfl, rfl, rfl, rfl, rfl⟩⟩

/-- Counterexample for C7 as stated: through the bulk-import endpoint a
surgery candidate without a status is stored "active" (the claim
requires "historical"), and an allergy candidate with
`is_critical=false` is stored non-critical (the claim requires forced
true). -/
theorem c7_import_defaults_counterexample :
    (bulkEntryRecord 0 1 20 "OCR" "report_9" "MedicalReport" surgeryCandidate).status
        = "active"
  ∧ (bulkEntryRecord 0 1 20 "OCR" "report_9" "MedicalReport" surgeryCandidate).status
        ≠ "historical"
  ∧ (bulkEntryRecord 1 1 20 "OCR" "report_9" "MedicalReport" allergyCandidate).isCritical
        = false := by
  refine ⟨by decide, by decide, by decide⟩

/-! ## Helper lemmas: ledger operations -/

lemma doctorAdd_badDates_fails (s : LedgerState) (u : Nat) (inp : DoctorAddInput)
    (sd ed : Nat) (hsd : inp.startDate = some sd) (hed : inp.endDate = some ed)
    (hlt : ed < sd) : ∀ s', doctorAddHistory s u inp ≠ .ok s' := by
  intro s'
  have hinv : dateRangeInvalid inp.startDate inp.endDate = true := by
    rw [hsd, hed]
    simp [dateRangeInvalid, hlt]
  unfold doctorAddHistory
  split_ifs <;> simp_all

lemma doctorAdd_badDates_noop (s : LedgerState) (u : Nat) (inp : DoctorAddInput)
    (sd ed : Nat) (hsd : inp.startDate = some sd) (hed : inp.endDate = some ed)
    (hlt : ed < sd) : runOp s (.doctorAdd u inp) = s := by
  simp only [runOp]
  cases hres : doctorAddHistory s u inp with
  | ok s' => exact absurd hres (doctorAdd_badDates_fails s u inp sd ed hsd hed hlt s')
  | error e => rfl

lemma doctorAdd_badDates_msg (s : LedgerState) (u : Nat) (inp : DoctorAddInput)
    (sd ed : Nat) (hsd : inp.startDate = some sd) (hed : inp.endDate = some ed)
    (hlt : ed < sd)
    (hcat : inp.category ∈ categoryChoices)
    (hst : ∀ st, inp.status = some st → st ∈ statusChoices)
    (hsv : ∀ sv, inp.severity = some sv → sv ∈ severityChoices)
    (hws : s.workspaces.any (fun w => w.id = inp.workspaceId) = true) :
    doctorAddHistory s u inp
      = .error (.badRequest "End date cannot be before start date") := by
  have hinv : dateRangeInvalid inp.startDate inp.endDate = true := by
    rw [hsd, hed]
    simp [dateRangeInvalid, hlt]
  have hstc : invalidOptChoice statusChoices inp.status = false := by
    cases hv : inp.status with
    | none => rfl
    | some st => simp [invalidOptChoice, hst st hv]
  have hsvc : invalidOptChoice severityChoices inp.severity = false := by
    cases hv : inp.severity with
    | none => rfl
    | some sv => simp [invalidOptChoice, hsv sv hv]
  unfold doctorAddHistory
  rw [if_neg (by simp [hcat]), if_neg (by simp [hstc]), if_neg (by simp [hsvc]),
    if_neg (by simp [hws]), if_pos (by simp [hinv])]

lemma patientAdd_ignores_dates (s : LedgerState) (u : Nat) (inp : PatientAddInput)
    (ws : Workspace)
    (hws : s.workspaces.find? (fun w => w.patientId = u) = some ws)
    (hcat : inp.category ∈ categoryChoices) (hcne : inp.category ≠ "")
    (htne : inp.title ≠ "") :
    patientAddHistory s u inp = .ok
      { s with
        records := s.records ++ [patientEntryFor s.nextId ws.id u inp]
        events := s.events ++ [⟨s.nextId, "added", some u, "patient"⟩]
        nextId := s.nextId + 1 } := by
  unfold patientAddHistory
  rw [hws]
  simp only
  rw [if_neg (by simp [hcne, htne]), if_neg (by simp [hcat])]

lemma bulkFold_records_length (u wsId patientId : Nat) (src refId refType : String)
    (entries : List BulkEntry) :
    ∀ acc : LedgerState × List Nat,
      ((entries.foldl (bulkImportStep u wsId patientId src refId refType) acc).1).records.length
        = acc.1.records.length + entries.length := by
  induction entries with
  | nil => intro acc; simp
  | cons e es ih =>
    intro acc
    rw [List.foldl_cons, ih]
    simp [bulkImportStep]
    omega

lemma bulkFold_events_length (u wsId patientId : Nat) (src refId refType : String)
    (entries : List BulkEntry) :
    ∀ acc : LedgerState × List Nat,
      ((entries.foldl (bulkImportStep u wsId patientId src refId refType) acc).1).events.length
        = acc.1.events.length + entries.length := by
  induction entries with
  | nil => intro acc; simp
  | cons e es ih =>
    intro acc
    rw [List.foldl_cons, ih]
    simp [bulkImportStep]
    omega

lemma bulkFold_workspaces (u wsId patientId : Nat) (src refId refType : String)
    (entries : List BulkEntry) :
    ∀ acc : LedgerState × List Nat,
      ((entries.foldl (bulkImportStep u wsId patientId src refId refType) acc).1).workspaces
        = acc.1.workspaces := by
  induction entries with
  | nil => intro acc; simp
  | cons e es ih =>
    intro acc
    rw [List.foldl_cons, ih]
    simp [bulkImportStep]

lemma doctorBulkImport_ok (s : LedgerState) (u : Nat) (req : BulkImportRequest)
    (ws : Workspace)
    (hfind : s.workspaces.find? (fun w => w.id = req.workspaceId && w.doctorId = u)
        = some ws)
    (hsrc : req.source ∈ ["INTAKE", "OCR", "MANUAL"])
    (hlen : 1 ≤ req.entries.length)
    (hcats : req.entries.all (fun e => e.category ∈ categoryChoices) = true) :
    doctorBulkImport s u req = .ok
      (req.entries.foldl
        (bulkImportStep u ws.id ws.patientId req.source
          req.sourceReferenceId req.sourceReferenceType) (s, [])) := by
  have hmem : ws ∈ s.workspaces := List.mem_of_find?_eq_some hfind
  have hpred := List.find?_some hfind
  have hid : ws.id = req.workspaceId := by
    simp only [Bool.and_eq_true, decide_eq_true_eq] at hpred
    exact hpred.1
  have hany : s.workspaces.any (fun w => w.id = req.workspaceId) = true := by
    rw [List.any_eq_true]
    exact ⟨ws, hmem, by simp [hid]⟩
  unfold doctorBulkImport
  rw [if_neg (by simp [hany]), if_neg (by simp [hsrc]), if_neg (by omega),
    if_neg (by simp [hcats]), hfind]

lemma doctorBulkImport_ok_inv (s : LedgerState) (u : Nat) (req : BulkImportRequest)
    (out : LedgerState × List Nat) (h : doctorBulkImport s u req = .ok out) :
    req.source ∈ ["INTAKE", "OCR", "MANUAL"]
    ∧ 1 ≤ req.entries.length
    ∧ req.entries.all (fun e => e.category ∈ categoryChoices) = true
    ∧ ∃ ws, s.workspaces.find? (fun w => w.id = req.workspaceId && w.doctorId = u)
          = some ws
        ∧ out = req.entries.foldl
            (bulkImportStep u ws.id ws.patientId req.source
              req.sourceReferenceId req.sourceReferenceType) (s, []) := by
  unfold doctorBulkImport at h
  split_ifs at h with h1 h2 h3 h4
  rcases hfind : s.workspaces.find?
      (fun w => w.id = req.workspaceId && w.doctorId = u) with _ | ws
  · rw [hfind] at h
    exact absurd h (by simp)
  · rw [hfind] at h
    exact ⟨h2, by omega, h4, ws, hfind, (Except.ok.inj h).symm⟩

lemma doctorUpdate_succeeds (s : LedgerState) (u eid : Nat) (p : EntryPatch)
    (entry : HistoryRecord)
    (hfind : findRecord s eid = some entry)
    (hdoc : workspaceDoctor s entry.workspaceId = some u)
    (hp : patchValid p = true) :
    ∃ s', doctorUpdateEntry s u eid p = .ok s'
      ∧ s'.records = (updateRecordIn s eid (applyPatch entry p)).records := by
  unfold doctorUpdateEntry
  rw [hfind]
  simp only
  rw [if_neg (fun hne => hne hdoc), if_neg (by simp [hp])]
  split
  · exact ⟨_, rfl, rfl⟩
  · exact ⟨_, rfl, rfl⟩

lemma doctorDelete_succeeds (s : LedgerState) (u eid : Nat) (entry : HistoryRecord)
    (hfind : findRecord s eid = some entry)
    (hdoc : workspaceDoctor s entry.workspaceId = some u) :
    doctorDeleteEntry s u eid = .ok
      { s with records := s.records.filter (fun r => r.id ≠ eid)
               events := s.events.filter (fun ev => ev.historyEntryId ≠ eid) } := by
  unfold doctorDeleteEntry
  rw [hfind]
  simp only
  rw [if_neg (fun hne => hne hdoc)]

lemma patientUpdate_denied (s : LedgerState) (u eid : Nat) (p : EntryPatch)
    (entry : HistoryRecord)
    (hfind : s.records.find? (fun r => r.id = eid && r.patientId = u) = some entry)
    (hsrc : entry.source ≠ "MANUAL") :
    patientUpdateEntry s u eid p = .error .accessDenied
    ∧ runOp s (.patientUpdate u eid p) = s := by
  have herr : patientUpdateEntry s u eid p = .error .accessDenied := by
    unfold patientUpdateEntry
    rw [hfind]
    simp only
    rw [if_pos hsrc]
  refine ⟨herr, ?_⟩
  simp only [runOp, herr]

lemma doctorAdd_ok_events (s : LedgerState) (u : Nat) (inp : DoctorAddInput)
    (s' : LedgerState) (h : doctorAddHistory s u inp = .ok s') :
    s'.events = s.events ++ [⟨s.nextId, "added", some u, "doctor"⟩]
    ∧ s'.records.length = s.records.length + 1 := by
  unfold doctorAddHistory at h
  split_ifs at h
  rcases hfind : s.workspaces.find?
      (fun w => w.id = inp.workspaceId && w.doctorId = u) with _ | ws
  · rw [hfind] at h; exact absurd h (by simp)
  · rw [hfind] at h
    rw [← Except.ok.inj h]
    simp

lemma patientAdd_ok_events (s : LedgerState) (u : Nat) (inp : PatientAddInput)
    (s' : LedgerState) (h : patientAddHistory s u inp = .ok s') :
    s'.events = s.events ++ [⟨s.nextId, "added", some u, "patient"⟩]
    ∧ s'.records.length = s.records.length + 1 := by
  unfold patientAddHistory at h
  rcases hfind : s.workspaces.find? (fun w => w.patientId = u) with _ | ws
  · rw [hfind] at h; exact absurd h (by simp)
  · rw [hfind] at h
    simp only at h
    split_ifs at h
    rw [← Except.ok.inj h]
    simp

lemma doctorUpdate_ok_events (s : LedgerState) (u eid : Nat) (p : EntryPatch)
    (s' : LedgerState) (h : doctorUpdateEntry s u eid p = .ok s') :
    s'.events = s.events
    ∨ s'.events = s.events ++ [⟨eid, "updated", some u, "doctor"⟩] := by
  unfold doctorUpdateEntry at h
  rcases hfind : findRecord s eid with _ | entry
  · rw [hfind] at h; exact absurd h (by simp)
  · rw [hfind] at h
    simp only at h
    split_ifs at h with hch
    · right
      rw [← Except.ok.inj h]
      simp [updateRecordIn]
    · left
      rw [← Except.ok.inj h]
      simp [updateRecordIn]

lemma doctorUpdate_tracked_unchanged (s : LedgerState) (u eid : Nat) (p : EntryPatch)
    (entry : HistoryRecord) (s' : LedgerState)
    (hfind : findRecord s eid = some entry)
    (h : doctorUpdateEntry s u eid p = .ok s')
    (hst : (applyPatch entry p).status = entry.status)
    (hti : (applyPatch entry p).title = entry.title)
    (hsv : (applyPatch entry p).severity = entry.severity) :
    s'.events = s.events := by
  unfold doctorUpdateEntry at h
  rw [hfind] at h
  simp only at h
  split_ifs at h with hd hv hch
  · exact absurd hch (by simp [hst, hti, hsv])
  · rw [← Except.ok.inj h]
    simp [updateRecordIn]

lemma doctorUpdate_tracked_changed (s : LedgerState) (u eid : Nat) (p : EntryPatch)
    (entry : HistoryRecord) (s' : LedgerState)
    (hfind : findRecord s eid = some entry)
    (h : doctorUpdateEntry s u eid p = .ok s')
    (hst : (applyPatch entry p).status ≠ entry.status) :
    s'.events = s.events ++ [⟨eid, "updated", some u, "doctor"⟩] := by
  unfold doctorUpdateEntry at h
  rw [hfind] at h
  simp only at h
  split_ifs at h with hd hv hch
  · rw [← Except.ok.inj h]
    simp [updateRecordIn]
  · exact absurd hch (by simp; exact fun hc => absurd hc.symm hst)

lemma doctorDelete_ok_events (s : LedgerState) (u eid : Nat)
    (s' : LedgerState) (h : doctorDeleteEntry s u eid = .ok s') :
    s'.events = s.events.filter (fun ev => ev.historyEntryId ≠ eid)
    ∧ s'.records = s.records.filter (fun r => r.id ≠ eid) := by
  unfold doctorDeleteEntry at h
  rcases hfind : findRecord s eid with _ | entry
  · rw [hfind] at h; exact absurd h (by simp)
  · rw [hfind] at h
    simp only at h
    split_ifs at h
    rw [← Except.ok.inj h]
    exact ⟨rfl, rfl⟩

/-! ## Claim C4 — date invariant -/

/-- Claim C4 (amended): only the doctor manual-add path rejects an end
date earlier than the start date — there the serializer fails with the
date-range message, nothing is created and the store is unchanged.  The
patient manual-add path and the bulk-import path perform no date check:
they create the record with the inverted dates stored verbatim. -/
theorem c4_date_invariant_amended :
    (∀ (s : LedgerState) (u : Nat) (inp : DoctorAddInput) (sd ed : Nat),
        inp.startDate = some sd → inp.endDate = some ed → ed < sd →
        (∀ s', doctorAddHistory s u inp ≠ .ok s')
        ∧ runOp s (.doctorAdd u inp) = s)
  ∧ (∀ (s : LedgerState) (u : Nat) (inp : DoctorAddInput) (sd ed : Nat),
        inp.startDate = some sd → inp.endDate = some ed → ed < sd →
        inp.category ∈ categoryChoices →
        (∀ st, inp.status = some st → st ∈ statusChoices) →
        (∀ sv, inp.severity = some sv → sv ∈ severityChoices) →
        s.workspaces.any (fun w => w.id = inp.workspaceId) = true →
        doctorAddHistory s u inp
          = .error (.badRequest "End date cannot be before start date"))
  ∧ (∀ (s : LedgerState) (u : Nat) (inp : PatientAddInput) (ws : Workspace),
        s.workspaces.find? (fun w => w.patientId = u) = some ws →
        inp.category ∈ categoryChoices → inp.category ≠ "" → inp.title ≠ "" →
        patientAddHistory s u inp = .ok
          { s with
            records := s.records ++ [patientEntryFor s.nextId ws.id u inp]
            events := s.events ++ [⟨s.nextId, "added", some u, "patient"⟩]
            nextId := s.nextId + 1 })
  ∧ (∀ (id wsId patientId : Nat) (src refId refType : String) (e : BulkEntry),
        (bulkEntryRecord id wsId patientId src refId refType e).startDate = e.startDate
        ∧ (bulkEntryRecord id wsId patientId src refId refType e).endDate = e.endDate)
  ∧ (∀ (s : LedgerState) (u : Nat) (req : BulkImportRequest) (ws : Workspace),
        s.workspaces.find? (fun w => w.id = req.workspaceId && w.doctorId = u)
            = some ws →
        req.source ∈ ["INTAKE", "OCR", "MANUAL"] →
        1 ≤ req.entries.length →
        req.entries.all (fun e => e.category ∈ categoryChoices) = true →
        ∃ out, doctorBulkImport s u req = .ok out) := by
  refine ⟨?_, doctorAdd_badDates_msg, patientAdd_ignores_dates,
    fun _ _ _ _ _ _ _ => ⟨rfl, rfl⟩, ?_⟩
  · intro s u inp sd ed hsd hed hlt
    exact ⟨doctorAdd_badDates_fails s u inp sd ed hsd hed hlt,
      doctorAdd_badDates_noop s u inp sd ed hsd hed hlt⟩
  · intro s u req ws hfind hsrc hlen hcats
    exact ⟨_, doctorBulkImport_ok s u req ws hfind hsrc hlen hcats⟩

/-- Witness for C4 (amended): the inverted-dates doctor add fails with
the date-range message and leaves the store unchanged, while the same
dates submitted through the patient endpoint create a record. -/
theorem c4_date_invariant_amended_witness :
    runOp baseState (.doctorAdd 10 doctorBadDatesInput) = baseState
  ∧ doctorAddHistory baseState 10 doctorBadDatesInput
      = .error (.badRequest "End date cannot be before start date")
  ∧ patientAddHistory baseState 20 badDatesInput = .ok afterBadDates :=
  ⟨(c4_date_invariant_amended.1 baseState 10 doctorBadDatesInput 100 50
      rfl rfl (by decide)).2,
   c4_date_invariant_amended.2.1 baseState 10 doctorBadDatesInput 100 50
      rfl rfl (by decide) (by decide) (by intro st h; cases h) (by intro sv h; cases h)
      (by decide),
   (c4_date_invariant_amended.2.2.1 baseState 20 badDatesInput ws1
      (by decide) (by decide) (by decide) (by decide)).trans
     (congrArg Except.ok (by decide))⟩

/-- Counterexample for C4 as stated: a patient entry with end day 50
before start day 100 is accepted — a record with exactly those dates and
a timeline event are created, contradicting the claimed universal
`InvalidDateRange` failure. -/
theorem c4_date_invariant_counterexample :
    (patientAddHistory baseState 20 badDatesInput).isOk = true
  ∧ afterBadDates.records.map (fun r => (r.startDate, r.endDate)) = [(some 100, some 50)]
  ∧ afterBadDates.records.length = 1
  ∧ afterBadDates.events.length = 1 := by
  refine ⟨by decide, by decide, by decide, by decide⟩

/-! ## Claim C5 — ownership enforcement -/

/-- Claim C5 (amended): the patient-side rule holds — a patient's update
of a non-MANUAL (e.g. DOCTOR) record fails with AccessDenied and leaves
the store unchanged — but the doctor-side rule does not: the doctor
endpoints check only that the caller is the workspace's doctor, never
the record's source or creator, so the workspace doctor successfully
updates and deletes a patient-created MANUAL record. -/
theorem c5_ownership_amended :
    (∀ (s : LedgerState) (u eid : Nat) (p : EntryPatch) (entry : HistoryRecord),
        findRecord s eid = some entry → entry.source = "MANUAL" →
        workspaceDoctor s entry.workspaceId = some u → patchValid p = true →
        ∃ s', doctorUpdateEntry s u eid p = .ok s'
          ∧ s'.records = (updateRecordIn s eid (applyPatch entry p)).records)
  ∧ (∀ (s : LedgerState) (u eid : Nat) (entry : HistoryRecord),
        findRecord s eid = some entry → entry.source = "MANUAL" →
        workspaceDoctor s entry.workspaceId = some u →
        doctorDeleteEntry s u eid = .ok
          { s with records := s.records.filter (fun r => r.id ≠ eid)
                   events := s.events.filter (fun ev => ev.historyEntryId ≠ eid) })
  ∧ (∀ (s : LedgerState) (u eid : Nat) (p : EntryPatch) (entry : HistoryRecord),
        s.records.find? (fun r => r.id = eid && r.patientId = u) = some entry →
        entry.source = "DOCTOR" →
        patientUpdateEntry s u eid p = .error .accessDenied
        ∧ runOp s (.patientUpdate u eid p) = s) := by
  refine ⟨?_, ?_, ?_⟩
  · intro s u eid p entry hfind _ hdoc hp
    exact doctorUpdate_succeeds s u eid p entry hfind hdoc hp
  · intro s u eid entry hfind _ hdoc
    exact doctorDelete_succeeds s u eid entry hfind hdoc
  · intro s u eid p entry hfind hsrc
    exact patientUpdate_denied s u eid p entry hfind (by rw [hsrc]; decide)

/-- Witness for C5 (amended): the workspace doctor renames the patient's
MANUAL record, and the patient's rename of the DOCTOR record is
rejected. -/
theorem c5_ownership_amended_witness :
    (∃ s', doctorUpdateEntry manualState 10 0 renamePatch = .ok s'
        ∧ s'.records = (updateRecordIn manualState 0
            (applyPatch manualRecord renamePatch)).records)
  ∧ (patientUpdateEntry verifiedState 20 0 renamePatch = .error .accessDenied
      ∧ runOp verifiedState (.patientUpdate 20 0 renamePatch) = verifiedState) :=
  ⟨c5_ownership_amended.1 manualState 10 0 renamePatch manualRecord
      (by decide) (by decide) (by decide) (by decide),
   c5_ownership_amended.2.2 verifiedState 20 0 renamePatch verifiedDoctorRecord
      (by decide) (by decide)⟩

/-- Counterexample for C5 as stated: the doctor of workspace 1 updates
and deletes patient 20's MANUAL record without any AccessDenied. -/
theorem c5_ownership_counterexample :
    (doctorUpdateEntry manualState 10 0 renamePatch).isOk = true
  ∧ (runOp manualState (.doctorUpdate 10 0 renamePatch)).records.map
      (fun r => r.title) = ["Chronic back pain"]
  ∧ (doctorDeleteEntry manualState 10 0).isOk = true
  ∧ (runOp manualState (.doctorDelete 10 0)).records = [] := by
  refine ⟨by decide, by decide, by decide, by decide⟩

/-! ## Claim C6 — audit completeness -/

/-- Claim C6 (amended): a successful create appends exactly one `added`
event (one per candidate for bulk import), but a successful doctor
update appends an `updated` event only when status, title or severity
changed — an update touching other fields appends none — and a
successful delete appends no event and cascade-removes the record's
existing events; failed mutations leave the store unchanged; listing a
record's timeline returns its events newest-first, the reverse of
creation order. -/
theorem c6_audit_amended :
    (∀ (s : LedgerState) (u : Nat) (inp : DoctorAddInput) (s' : LedgerState),
        doctorAddHistory s u inp = .ok s' →
        s'.events = s.events ++ [⟨s.nextId, "added", some u, "doctor"⟩])
  ∧ (∀ (s : LedgerState) (u : Nat) (inp : PatientAddInput) (s' : LedgerState),
        patientAddHistory s u inp = .ok s' →
        s'.events = s.events ++ [⟨s.nextId, "added", some u, "patient"⟩])
  ∧ (∀ (s : LedgerState) (u : Nat) (req : BulkImportRequest)
        (out : LedgerState × List Nat),
        doctorBulkImport s u req = .ok out →
        out.1.events.length = s.events.length + req.entries.length)
  ∧ (∀ (s : LedgerState) (u eid : Nat) (p : EntryPatch) (s' : LedgerState),
        doctorUpdateEntry s u eid p = .ok s' →
        s'.events = s.events
        ∨ s'.events = s.events ++ [⟨eid, "updated", some u, "doctor"⟩])
  ∧ (∀ (s : LedgerState) (u eid : Nat) (p : EntryPatch) (entry : HistoryRecord)
        (s' : LedgerState),
        findRecord s eid = some entry → doctorUpdateEntry s u eid p = .ok s' →
        (applyPatch entry p).status = entry.status →
        (applyPatch entry p).title = entry.title →
        (applyPatch entry p).severity = entry.severity →
        s'.events = s.events)
  ∧ (∀ (s : LedgerState) (u eid : Nat) (p : EntryPatch) (entry : HistoryRecord)
        (s' : LedgerState),
        findRecord s eid = some entry → doctorUpdateEntry s u eid p = .ok s' →
        (applyPatch entry p).status ≠ entry.status →
        s'.events = s.events ++ [⟨eid, "updated", some u, "doctor"⟩])
  ∧ (∀ (s : LedgerState) (u eid : Nat) (s' : LedgerState),
        doctorDeleteEntry s u eid = .ok s' →
        s'.events = s.events.filter (fun ev => ev.historyEntryId ≠ eid)
        ∧ s'.records = s.records.filter (fun r => r.id ≠ eid))
  ∧ (∀ (s : LedgerState) (u eid : Nat) (p : EntryPatch) (err : ApiError),
        doctorUpdateEntry s u eid p = .error err →
        runOp s (.doctorUpdate u eid p) = s)
  ∧ entryTimeline auditState2b 0
      = [⟨0, "updated", some 10, "doctor"⟩, ⟨0, "added", some 10, "doctor"⟩] := by
  refine ⟨fun s u inp s' h => (doctorAdd_ok_events s u inp s' h).1,
    fun s u inp s' h => (patientAdd_ok_events s u inp s' h).1,
    ?_, doctorUpdate_ok_events,
    fun s u eid p entry s' hf h h1 h2 h3 =>
      doctorUpdate_tracked_unchanged s u eid p entry s' hf h h1 h2 h3,
    fun s u eid p entry s' hf h h1 =>
      doctorUpdate_tracked_changed s u eid p entry s' hf h h1,
    doctorDelete_ok_events, ?_, by decide⟩
  · intro s u req out h
    obtain ⟨hsrc, hlen, hcats, ws, hfind, hout⟩ := doctorBulkImport_ok_inv s u req out h
    rw [hout]
    simpa using bulkFold_events_length u ws.id ws.patientId req.source
      req.sourceReferenceId req.sourceReferenceType req.entries (s, [])
  · intro s u eid p err h
    simp only [runOp, h]

/-- Witness for C6 (amended): one concrete lifecycle — create appends the
added event, a description-only update appends nothing, the delete
removes the record's events. -/
theorem c6_audit_amended_witness :
    auditState1.events = baseState.events ++ [⟨0, "added", some 10, "doctor"⟩]
  ∧ auditState2.events = auditState1.events
  ∧ auditState3.events
      = auditState2.events.filter (fun ev => ev.historyEntryId ≠ 0) :=
  ⟨c6_audit_amended.1 baseState 10 doctorCondInput auditState1 (by decide),
   c6_audit_amended.2.2.2.2.1 auditState1 10 0 descriptionPatch
      (doctorEntryFor 0 ws1 10 doctorCondInput) auditState2
      (by decide) (by decide) (by decide) (by decide) (by decide),
   (c6_audit_amended.2.2.2.2.2.2.1 auditState2 10 0 auditState3 (by decide)).1⟩

/-- Counterexample for C6 as stated: after two successful mutations on
record 0 (create, then a description-only update) only one TimelineEvent
exists; after the third successful mutation (delete) zero events remain
for it, while the claim requires one event per successful mutation. -/
theorem c6_audit_counterexample :
    (doctorAddHistory baseState 10 doctorCondInput).isOk = true
  ∧ (doctorUpdateEntry auditState1 10 0 descriptionPatch).isOk = true
  ∧ (entryTimeline auditState2 0).length = 1
  ∧ (doctorDeleteEntry auditState2 10 0).isOk = true
  ∧ (entryTimeline auditState3 0).length = 0 := by
  refine ⟨by decide, by decide, by decide, by decide, by decide⟩

/-! ## Claim C1 — idempotent import -/

/-- Claim C1 (amended): `doctor_bulk_import_history` performs no dedup —
re-importing the same `(workspaceId, source, sourceReferenceId)` batch
succeeds again and appends a fresh copy of every candidate, growing the
ledger by the batch size on each run; only `auto_sync_workspace` checks
for an existing record with the document's
`(workspace, source, source_reference_id)` key, and a document that
already has one is skipped: records and the error list are unchanged. -/
theorem c1_import_dedup_amended :
    (∀ (s : LedgerState) (u : Nat) (req : BulkImportRequest)
        (out : LedgerState × List Nat),
        doctorBulkImport s u req = .ok out →
        out.1.records.length = s.records.length + req.entries.length
        ∧ ∃ out2, doctorBulkImport out.1 u req = .ok out2
            ∧ out2.1.records.length = s.records.length + 2 * req.entries.length)
  ∧ (∀ (s : LedgerState) (errs : List String) (wsId formId n : Nat),
        hasIntakeImport s wsId formId = true →
        autoSyncIntakeForm s errs wsId formId n = (s, errs))
  ∧ (∀ (s : LedgerState) (errs : List String) (wsId reportId n : Nat),
        hasReportImport s wsId reportId = true →
        autoSyncReport s errs wsId reportId n = (s, errs)) := by
  refine ⟨?_, ?_, ?_⟩
  · intro s u req out h
    obtain ⟨hsrc, hlen, hcats, ws, hfind, hout⟩ := doctorBulkImport_ok_inv s u req out h
    have hws : out.1.workspaces = s.workspaces := by
      rw [hout]
      exact bulkFold_workspaces u ws.id ws.patientId req.source
        req.sourceReferenceId req.sourceReferenceType req.entries (s, [])
    have hlen1 : out.1.records.length = s.records.length + req.entries.length := by
      rw [hout]
      simpa using bulkFold_records_length u ws.id ws.patientId req.source
        req.sourceReferenceId req.sourceReferenceType req.entries (s, [])
    have hfind2 : out.1.workspaces.find?
        (fun w => w.id = req.workspaceId && w.doctorId = u) = some ws := by
      rw [hws]; exact hfind
    refine ⟨hlen1, _, doctorBulkImport_ok out.1 u req ws hfind2 hsrc hlen hcats, ?_⟩
    have h2 := bulkFold_records_length u ws.id ws.patientId req.source
      req.sourceReferenceId req.sourceReferenceType req.entries (out.1, [])
    rw [show ((out.1, ([] : List Nat)).1) = out.1 from rfl] at h2
    rw [h2]
    omega
  · intro s errs wsId formId n h
    simp [autoSyncIntakeForm, h]
  · intro s errs wsId reportId n h
    simp [autoSyncReport, h]

/-- Witness for C1 (amended): importing the §8 scenario's `report_7`
batch once grows the empty workspace to one record and a re-import would
grow it to two, while a form already imported is skipped by auto-sync. -/
theorem c1_import_dedup_amended_witness :
    (afterFirstImport.records.length = baseState.records.length + 1
      ∧ ∃ out2, doctorBulkImport afterFirstImport 10 report7Request = .ok out2
          ∧ out2.1.records.length = baseState.records.length + 2 * 1)
  ∧ autoSyncIntakeForm intakeImportedState [] 1 3 2 = (intakeImportedState, []) :=
  ⟨c1_import_dedup_amended.1 baseState 10 report7Request (afterFirstImport, [0])
      (by decide),
   c1_import_dedup_amended.2.1 intakeImportedState [] 1 3 2 (by decide)⟩

/-- Counterexample for C1 as stated: importing the `report_7` batch
twice through `doctor_bulk_import_history` leaves two records (and two
`added` events) where one import leaves one — the re-import is not a
no-op. -/
theorem c1_import_dedup_counterexample :
    afterFirstImport.records.length = 1
  ∧ afterSecondImport.records.length = 2
  ∧ afterSecondImport.events.length = 2
  ∧ afterSecondImport.records ≠ afterFirstImport.records := by
  refine ⟨by decide, by decide, by decide, by decide⟩

/-! ## Helper lemmas: the one-way verification invariant -/

lemma verInv_congr (eid : Nat) (s t : LedgerState) (hrec : t.records = s.records)
    (hnext : t.nextId = s.nextId) (h : VerInv eid s) : VerInv eid t := by
  obtain ⟨h1, h2, h3⟩ := h
  refine ⟨by rw [hnext]; exact h1, ?_, ?_⟩
  · intro r hr
    rw [hnext]
    exact h2 r (hrec ▸ hr)
  · intro r hr
    exact h3 r (hrec ▸ hr)

lemma verInv_insert (eid : Nat) (s : LedgerState) (entry : HistoryRecord)
    (ev : TimelineEvent) (h : VerInv eid s) (hid : entry.id = s.nextId) :
    VerInv eid { s with records := s.records ++ [entry]
                        events := s.events ++ [ev], nextId := s.nextId + 1 } := by
  obtain ⟨h1, h2, h3⟩ := h
  refine ⟨Nat.lt_succ_of_lt h1, ?_, ?_⟩
  · intro r hr
    rcases List.mem_append.1 hr with hr | hr
    · exact Nat.lt_succ_of_lt (h2 r hr)
    · simp only [List.mem_singleton] at hr
      subst hr
      rw [hid]
      exact Nat.lt_succ_self _
  · intro r hr hrid
    rcases List.mem_append.1 hr with hr | hr
    · exact h3 r hr hrid
    · simp only [List.mem_singleton] at hr
      subst hr
      rw [hid] at hrid
      omega

lemma verInv_update (eid entryId : Nat) (s : LedgerState) (entry upd : HistoryRecord)
    (hmem : entry ∈ s.records) (heid : entry.id = entryId)
    (hupdid : upd.id = entry.id)
    (hv : upd.verifiedByDoctor = entry.verifiedByDoctor ∨ upd.verifiedByDoctor = true)
    (h : VerInv eid s) : VerInv eid (updateRecordIn s entryId upd) := by
  obtain ⟨h1, h2, h3⟩ := h
  refine ⟨h1, ?_, ?_⟩
  · intro r hr
    simp only [updateRecordIn] at hr ⊢
    obtain ⟨a, ha, rfl⟩ := List.mem_map.1 hr
    by_cases hc : a.id = entryId
    · rw [if_pos hc, hupdid, heid, ← hc]
      exact h2 a ha
    · rw [if_neg hc]
      exact h2 a ha
  · intro r hr hrid
    simp only [updateRecordIn] at hr
    obtain ⟨a, ha, rfl⟩ := List.mem_map.1 hr
    by_cases hc : a.id = entryId
    · rw [if_pos hc] at hrid ⊢
      rw [hupdid, heid] at hrid
      have hever : entry.verifiedByDoctor = true := h3 entry hmem (heid.trans hrid)
      rcases hv with hv | hv
      · rw [hv, hever]
      · exact hv
    · rw [if_neg hc] at hrid ⊢
      exact h3 a ha hrid

lemma verInv_filter (eid : Nat) (s : LedgerState) (q : HistoryRecord → Bool)
    (E : List TimelineEvent) (h : VerInv eid s) :
    VerInv eid { s with records := s.records.filter q, events := E } := by
  obtain ⟨h1, h2, h3⟩ := h
  exact ⟨h1, fun r hr => h2 r (List.mem_of_mem_filter hr),
    fun r hr hrid => h3 r (List.mem_of_mem_filter hr) hrid⟩

lemma verInv_bulkFold (eid u wsId patientId : Nat) (src refId refType : String)
    (entries : List BulkEntry) :
    ∀ acc : LedgerState × List Nat, VerInv eid acc.1 →
      VerInv eid ((entries.foldl (bulkImportStep u wsId patientId src refId refType)
        acc).1) := by
  induction entries with
  | nil => intro acc h; simpa using h
  | cons e es ih =>
    intro acc h
    rw [List.foldl_cons]
    exact ih _ (verInv_insert eid acc.1 _ _ h rfl)



lemma doctorAdd_ok_shape (s : LedgerState) (u : Nat) (inp : DoctorAddInput)
    (s' : LedgerState) (h : doctorAddHistory s u inp = .ok s') :
    ∃ ws, s' = { s with
      records := s.records ++ [doctorEntryFor s.nextId ws u inp]
      events := s.events ++ [⟨s.nextId, "added", some u, "doctor"⟩]
      nextId := s.nextId + 1 } := by
  unfold doctorAddHistory at h
  split_ifs at h
  rcases hfind : s.workspaces.find?
      (fun w => w.id = inp.workspaceId && w.doctorId = u) with _ | ws
  · rw [hfind] at h; exact absurd h (by simp)
  · rw [hfind] at h
    exact ⟨ws, (Except.ok.inj h).symm⟩

lemma patientAdd_ok_shape (s : LedgerState) (u : Nat) (inp : PatientAddInput)
    (s' : LedgerState) (h : patientAddHistory s u inp = .ok s') :
    ∃ ws, s' = { s with
      records := s.records ++ [patientEntryFor s.nextId ws u inp]
      events := s.events ++ [⟨s.nextId, "added", some u, "patient"⟩]
      nextId := s.nextId + 1 } := by
  unfold patientAddHistory at h
  rcases hfind : s.workspaces.find? (fun w => w.patientId = u) with _ | ws
  · rw [hfind] at h; exact absurd h (by simp)
  · rw [hfind] at h
    simp only at h
    split_ifs at h
    exact ⟨ws.id, (Except.ok.inj h).symm⟩

lemma doctorUpdate_ok_recs (s : LedgerState) (u eid : Nat) (p : EntryPatch)
    (s' : LedgerState) (h : doctorUpdateEntry s u eid p = .ok s') :
    ∃ entry, findRecord s eid = some entry
      ∧ s'.records = (updateRecordIn s eid (applyPatch entry p)).records
      ∧ s'.nextId = s.nextId := by
  unfold doctorUpdateEntry at h
  rcases hfind : findRecord s eid with _ | entry
  · rw [hfind] at h; exact absurd h (by simp)
  · rw [hfind] at h
    simp only at h
    split_ifs at h
    · exact ⟨entry, rfl, by rw [← Except.ok.inj h], by rw [← Except.ok.inj h]; rfl⟩
    · exact ⟨entry, rfl, by rw [← Except.ok.inj h], by rw [← Except.ok.inj h]; rfl⟩

lemma patientUpdate_ok_recs (s : LedgerState) (u eid : Nat) (p : EntryPatch)
    (s' : LedgerState) (h : patientUpdateEntry s u eid p = .ok s') :
    ∃ entry, s.records.find? (fun r => r.id = eid && r.patientId = u) = some entry
      ∧ s'.records = (updateRecordIn s eid (applyPatch entry p)).records
      ∧ s'.nextId = s.nextId := by
  unfold patientUpdateEntry at h
  rcases hfind : s.records.find? (fun r => r.id = eid && r.patientId = u) with _ | entry
  · rw [hfind] at h; exact absurd h (by simp)
  · rw [hfind] at h
    simp only at h
    split_ifs at h
    · exact ⟨entry, hfind, by rw [← Except.ok.inj h], by rw [← Except.ok.inj h]; rfl⟩
    · exact ⟨entry, hfind, by rw [← Except.ok.inj h], by rw [← Except.ok.inj h]; rfl⟩

lemma doctorDelete_ok_shape (s : LedgerState) (u eid : Nat)
    (s' : LedgerState) (h : doctorDeleteEntry s u eid = .ok s') :
    s' = { s with records := s.records.filter (fun r => r.id ≠ eid)
                  events := s.events.filter (fun ev => ev.historyEntryId ≠ eid) } := by
  unfold doctorDeleteEntry at h
  rcases hfind : findRecord s eid with _ | entry
  · rw [hfind] at h; exact absurd h (by simp)
  · rw [hfind] at h
    simp only at h
    split_ifs at h
    exact (Except.ok.inj h).symm

lemma patientDelete_ok_shape (s : LedgerState) (u eid : Nat)
    (s' : LedgerState) (h : patientDeleteEntry s u eid = .ok s') :
    s' = { s with records := s.records.filter (fun r => r.id ≠ eid)
                  events := s.events.filter (fun ev => ev.historyEntryId ≠ eid) } := by
  unfold patientDeleteEntry at h
  rcases hfind : s.records.find? (fun r => r.id = eid && r.patientId = u) with _ | entry
  · rw [hfind] at h; exact absurd h (by simp)
  · rw [hfind] at h
    simp only at h
    split_ifs at h
    exact (Except.ok.inj h).symm

lemma doctorVerify_ok_recs (s : LedgerState) (u eid : Nat)
    (s' : LedgerState) (h : doctorVerifyEntry s u eid = .ok s') :
    ∃ entry, findRecord s eid = some entry
      ∧ s'.records
          = (updateRecordIn s eid { entry with verifiedByDoctor := true }).records
      ∧ s'.nextId = s.nextId := by
  unfold doctorVerifyEntry at h
  rcases hfind : findRecord s eid with _ | entry
  · rw [hfind] at h; exact absurd h (by simp)
  · rw [hfind] at h
    simp only at h
    split_ifs at h
    exact ⟨entry, rfl, by rw [← Except.ok.inj h], by rw [← Except.ok.inj h]; rfl⟩

lemma findRecord_mem (s : LedgerState) (eid : Nat) (entry : HistoryRecord)
    (h : findRecord s eid = some entry) : entry ∈ s.records ∧ entry.id = eid := by
  refine ⟨List.mem_of_find?_eq_some h, ?_⟩
  have := List.find?_some h
  simpa using this

lemma patientFind_mem (s : LedgerState) (u eid : Nat) (entry : HistoryRecord)
    (h : s.records.find? (fun r => r.id = eid && r.patientId = u) = some entry) :
    entry ∈ s.records ∧ entry.id = eid := by
  refine ⟨List.mem_of_find?_eq_some h, ?_⟩
  have := List.find?_some h
  simp only [Bool.and_eq_true, decide_eq_true_eq] at this
  exact this.1

lemma verInv_runOp (eid : Nat) (s : LedgerState) (op : LedgerOp)
    (hop : opKeepsVerifiedField op) (h : VerInv eid s) : VerInv eid (runOp s op) := by
  cases op with
  | doctorAdd u inp =>
    simp only [runOp]
    cases hres : doctorAddHistory s u inp with
    | error e => exact h
    | ok s' =>
      obtain ⟨ws, rfl⟩ := doctorAdd_ok_shape s u inp s' hres
      exact verInv_insert eid s _ _ h rfl
  | patientAdd u inp =>
    simp only [runOp]
    cases hres : patientAddHistory s u inp with
    | error e => exact h
    | ok s' =>
      obtain ⟨ws, rfl⟩ := patientAdd_ok_shape s u inp s' hres
      exact verInv_insert eid s _ _ h rfl
  | bulkImport u req =>
    simp only [runOp]
    cases hres : doctorBulkImport s u req with
    | error e => exact h
    | ok out =>
      obtain ⟨_, _, _, ws, _, hout⟩ := doctorBulkImport_ok_inv s u req out hres
      rw [hout]
      exact verInv_bulkFold eid u ws.id ws.patientId req.source
        req.sourceReferenceId req.sourceReferenceType req.entries (s, []) h
  | doctorUpdate u eid' p =>
    simp only [runOp]
    cases hres : doctorUpdateEntry s u eid' p with
    | error e => exact h
    | ok s' =>
      obtain ⟨entry, hfind, hrec, hnext⟩ := doctorUpdate_ok_recs s u eid' p s' hres
      obtain ⟨hmem, hid⟩ := findRecord_mem s eid' entry hfind
      have hv : (applyPatch entry p).verifiedByDoctor = entry.verifiedByDoctor := by
        simp only [applyPatch]
        rw [hop]
        rfl
      exact verInv_congr eid _ s' hrec hnext
        (verInv_update eid eid' s entry _ hmem hid rfl (Or.inl hv) h)
  | patientUpdate u eid' p =>
    simp only [runOp]
    cases hres : patientUpdateEntry s u eid' p with
    | error e => exact h
    | ok s' =>
      obtain ⟨entry, hfind, hrec, hnext⟩ := patientUpdate_ok_recs s u eid' p s' hres
      obtain ⟨hmem, hid⟩ := patientFind_mem s u eid' entry hfind
      have hv : (applyPatch entry p).verifiedByDoctor = entry.verifiedByDoctor := by
        simp only [applyPatch]
        rw [hop]
        rfl
      exact verInv_congr eid _ s' hrec hnext
        (verInv_update eid eid' s entry _ hmem hid rfl (Or.inl hv) h)
  | doctorDelete u eid' =>
    simp only [runOp]
    cases hres : doctorDeleteEntry s u eid' with
    | error e => exact h
    | ok s' =>
      rw [doctorDelete_ok_shape s u eid' s' hres]
      exact verInv_filter eid s _ _ h
  | patientDelete u eid' =>
    simp only [runOp]
    cases hres : patientDeleteEntry s u eid' with
    | error e => exact h
    | ok s' =>
      rw [patientDelete_ok_shape s u eid' s' hres]
      exact verInv_filter eid s _ _ h
  | verify u eid' =>
    simp only [runOp]
    cases hres : doctorVerifyEntry s u eid' with
    | error e => exact h
    | ok s' =>
      obtain ⟨entry, hfind, hrec, hnext⟩ := doctorVerify_ok_recs s u eid' s' hres
      obtain ⟨hmem, hid⟩ := findRecord_mem s eid' entry hfind
      exact verInv_congr eid _ s' hrec hnext
        (verInv_update eid eid' s entry _ hmem hid rfl (Or.inr rfl) h)

lemma verInv_runOps (eid : Nat) (ops : List LedgerOp) :
    ∀ s : LedgerState, (∀ op ∈ ops, opKeepsVerifiedField op) → VerInv eid s →
      VerInv eid (runOps s ops) := by
  induction ops with
  | nil => intro s _ h; exact h
  | cons op ops ih =>
    intro s hops h
    rw [runOps, List.foldl_cons]
    exact ih (runOp s op) (fun o ho => hops o (List.mem_cons_of_mem op ho))
      (verInv_runOp eid s op (hops op (List.mem_cons_self op ops)) h)

/-! ## Claim C9 — one-way verification flag -/

/-- Claim C9 (amended): `doctor_verify_entry` only ever writes
`verified_by_doctor = True`, and the flag stays true across any sequence
of endpoint calls whose update payloads do not carry the
`verified_by_doctor` field.  The one-way transition is, however, not
enforced by the code: `verified_by_doctor` is a writable serializer
field, so an update payload containing `verified_by_doctor: false`
resets a verified record. -/
theorem c9_verified_one_way_amended :
    (∀ (s : LedgerState) (u eid : Nat) (s' : LedgerState),
        doctorVerifyEntry s u eid = .ok s' →
        ∀ r ∈ s'.records, r.id = eid → r.verifiedByDoctor = true)
  ∧ (∀ (s : LedgerState) (eid : Nat) (ops : List LedgerOp),
        StateWF s → eid < s.nextId →
        (∀ r ∈ s.records, r.id = eid → r.verifiedByDoctor = true) →
        (∀ op ∈ ops, opKeepsVerifiedField op) →
        ∀ r ∈ (runOps s ops).records, r.id = eid → r.verifiedByDoctor = true) := by
  constructor
  · intro s u eid s' hres r hr hrid
    obtain ⟨entry, hfind, hrec, hnext⟩ := doctorVerify_ok_recs s u eid s' hres
    rw [hrec] at hr
    simp only [updateRecordIn] at hr
    obtain ⟨a, ha, rfl⟩ := List.mem_map.1 hr
    by_cases hc : a.id = eid
    · rw [if_pos hc]
    · rw [if_neg hc] at hrid ⊢
      exact absurd hrid hc
  · intro s eid ops hwf heid hver hops
    exact (verInv_runOps eid ops s hops ⟨heid, hwf, hver⟩).2.2

/-- Witness for C9 (amended): record 0 of the concrete verified store
stays verified across a rename followed by a re-verification. -/
theorem c9_verified_one_way_amended_witness :
    ({ verifiedDoctorRecord with title := "Chronic back pain" } :
        HistoryRecord).verifiedByDoctor = true :=
  c9_verified_one_way_amended.2 verifiedState 0 c9Ops
    (by show ∀ r ∈ verifiedState.records, r.id < verifiedState.nextId; decide)
    (by decide)
    (by show ∀ r ∈ verifiedState.records, r.id = 0 → r.verifiedByDoctor = true; decide)
    (by intro op hop
        rcases List.mem_cons.1 hop with rfl | hop
        · exact rfl
        · rcases List.mem_cons.1 hop with rfl | hop
          · exact trivial
          · cases hop)
    { verifiedDoctorRecord with title := "Chronic back pain" }
    (by decide) (by decide)

/-- Counterexample for C9 as stated: a doctor update whose payload sets
`verified_by_doctor: false` succeeds on a verified record and flips the
flag back to false — the transition is not one-way under the exposed
operations. -/
theorem c9_verified_one_way_counterexample :
    verifiedDoctorRecord.verifiedByDoctor = true
  ∧ (doctorUpdateEntry verifiedState 10 0 unverifyPatch).isOk = true
  ∧ (runOp verifiedState (.doctorUpdate 10 0 unverifyPatch)).records.map
      (fun r => r.verifiedByDoctor) = [false] := by
  refine ⟨by decide, by decide, by decide⟩

end PatientHistory
